import Mathlib

/-! Shallow embedding of src/rotate.cpp, a MAVSDK flight script that connects
to a vehicle, waits for health, arms, takes off, waits for altitude above
1 m, rotates while climbing to 5 m under offboard velocity control, hovers
for five seconds, stops offboard mode and lands.

The external MAVSDK vehicle link is modelled as an oracle (`Link`) giving
the result of every command and the successive telemetry readings; the
program is modelled as a fuel-indexed function producing the list of
observable events (commands sent, telemetry polls, sleeps, stdout and
stderr lines) together with an outcome: an exit code, or `looping` when the
fuel runs out inside one of the program's unbounded polling loops (the
source loops carry no timeout, so a run that never satisfies the polled
condition never exits). -/

namespace Rotate

/-- Mirror of mavsdk `Offboard::VelocityBodyYawspeed` (rotate.cpp lines
99-103, 127-131, 159-163): forward, right and down velocities plus a yaw
rate.  Velocities are modelled as rationals. -/
structure VelocityBodyYawspeed where
  forward_m_s : ℚ
  right_m_s : ℚ
  down_m_s : ℚ
  yawspeed_deg_s : ℚ
  deriving DecidableEq, Repr

/-- Observable events of one run of the program: commands issued to the
vehicle link, telemetry polls with the value read, sleeps with their
duration in milliseconds, stdout status lines (`info`) and stderr lines
(`err`). -/
inductive Event where
  | info (s : String)
  | err (s : String)
  | connect (url : String)
  | discover
  | setRate (hz : ℚ)
  | subscribePosition
  | pollHealth (ok : Bool)
  | arm
  | takeoff
  | setVelocityBody (sp : VelocityBodyYawspeed)
  | offboardStart
  | offboardStop
  | land
  | pollPosition (alt : ℚ)
  | pollInAir (b : Bool)
  | sleepMs (ms : Nat)
  deriving DecidableEq, Repr

/-- Final status of a (fuel-bounded) run: the process exited with a code,
or the fuel was exhausted inside one of the unbounded polling loops. -/
inductive Outcome where
  | exited (code : Nat)
  | looping
  deriving DecidableEq, Repr

/-- The oracle for the external vehicle link: result of each command-style
call (`true` = Success) and the successive telemetry readings.  `health k`
is the value of the k-th `health_all_ok()` poll, `position j` the value of
the j-th `telemetry.position()` read (the two altitude loops share one
read counter), `setVel n` the result of the n-th `set_velocity_body` call,
`inAir k` the value of the k-th `in_air()` poll. -/
structure Link where
  connectOk : Bool
  discoverOk : Bool
  setRateOk : Bool
  health : Nat → Bool
  armOk : Bool
  takeoffOk : Bool
  position : Nat → ℚ
  setVel : Nat → Bool
  offboardStartOk : Bool
  offboardStopOk : Bool
  landOk : Bool
  inAir : Nat → Bool

/-- The neutral (all-zero) setpoint `stay` sent before starting offboard
mode (rotate.cpp lines 99-103). -/
def stay : VelocityBodyYawspeed := ⟨0, 0, 0, 0⟩

/-- The rotate-while-climbing setpoint (rotate.cpp lines 123-131):
`down_m_s = -climb_speed_m_s = -0.5`, `yawspeed_deg_s = 45`. -/
def rotateClimbSp : VelocityBodyYawspeed := ⟨0, 0, -(1/2), 45⟩

/-- The neutral (all-zero) setpoint `hover` sent once the target altitude
is reached (rotate.cpp lines 159-163). -/
def hover : VelocityBodyYawspeed := ⟨0, 0, 0, 0⟩

/-- Health wait loop (rotate.cpp lines 62-65): poll `health_all_ok` and,
while it is false, print and sleep one second.  `k` is the index of the
next health poll; the result is `some ()` if the loop exited within the
fuel bound, `none` otherwise. -/
def healthLoop (link : Link) : Nat → Nat → List Event × Option Unit
  | 0, _ => ([], none)
  | fuel + 1, k =>
    if link.health k then ([.pollHealth true], some ())
    else
      (Event.pollHealth false :: Event.info "Vehicle is getting ready to arm..." ::
        Event.sleepMs 1000 :: (healthLoop link fuel (k + 1)).1,
       (healthLoop link fuel (k + 1)).2)

/-- First altitude wait loop (rotate.cpp lines 85-95): poll the position,
print the altitude, exit once it is strictly above 1 m, otherwise sleep
200 ms.  `j` is the index of the next position read; on success the result
carries the index of the next unconsumed position read. -/
def alt1Loop (link : Link) : Nat → Nat → List Event × Option Nat
  | 0, _ => ([], none)
  | fuel + 1, j =>
    if link.position j > 1 then
      ([.pollPosition (link.position j), .info "Current altitude",
        .info "Altitude above 1.0 m, start rotate + climb."], some (j + 1))
    else
      (Event.pollPosition (link.position j) :: Event.info "Current altitude" ::
        Event.sleepMs 200 :: (alt1Loop link fuel (j + 1)).1,
       (alt1Loop link fuel (j + 1)).2)

/-- Climb loop (rotate.cpp lines 143-156): poll the position, print the
altitude, exit once it reaches 5 m, otherwise sleep 200 ms. -/
def climbLoop (link : Link) : Nat → Nat → List Event × Option Nat
  | 0, _ => ([], none)
  | fuel + 1, j =>
    if 5 ≤ link.position j then
      ([.pollPosition (link.position j), .info "Rotate+Climb Alt",
        .info "Reached target altitude (5 m). Stop climb & rotation."], some (j + 1))
    else
      (Event.pollPosition (link.position j) :: Event.info "Rotate+Climb Alt" ::
        Event.sleepMs 200 :: (climbLoop link fuel (j + 1)).1,
       (climbLoop link fuel (j + 1)).2)

/-- Landing wait loop (rotate.cpp lines 192-195): while `in_air()` is
true, print and sleep one second. -/
def landLoop (link : Link) : Nat → Nat → List Event × Option Unit
  | 0, _ => ([], none)
  | fuel + 1, k =>
    if link.inAir k then
      (Event.pollInAir true :: Event.info "Vehicle is landing..." ::
        Event.sleepMs 1000 :: (landLoop link fuel (k + 1)).1,
       (landLoop link fuel (k + 1)).2)
    else ([.pollInAir false], some ())

/-- Landing phase (rotate.cpp lines 184-198): issue the land command, on
rejection print to stderr and exit 1, otherwise poll `in_air` at 1 Hz
until false and exit 0. -/
def landPhase (link : Link) (fuel : Nat) : List Event × Outcome :=
  if link.landOk then
    match (landLoop link fuel 0).2 with
    | none => ([.info "Landing...", .land] ++ (landLoop link fuel 0).1, .looping)
    | some _ =>
      ([.info "Landing...", .land] ++ (landLoop link fuel 0).1 ++
        [.info "Landed. Finished."], .exited 0)
  else ([.info "Landing...", .land, .err "Land failed"], .exited 1)

/-- Offboard stop phase (rotate.cpp lines 176-182): stop offboard mode, on
rejection print to stderr and exit 1, otherwise continue with landing. -/
def stopPhase (link : Link) (fuel : Nat) : List Event × Outcome :=
  if link.offboardStopOk then
    ([.info "Stopping Offboard...", .offboardStop] ++ (landPhase link fuel).1,
     (landPhase link fuel).2)
  else ([.info "Stopping Offboard...", .offboardStop, .err "Offboard stop failed"], .exited 1)

/-- Hover phase (rotate.cpp lines 158-174): send the neutral `hover`
setpoint (the third `set_velocity_body` call, result `link.setVel 2`), on
rejection print to stderr and exit 1, otherwise sleep five seconds and
continue with the offboard stop. -/
def hoverPhase (link : Link) (fuel : Nat) : List Event × Outcome :=
  if link.setVel 2 then
    ([.setVelocityBody hover, .info "Hovering for 5 seconds...", .sleepMs 5000] ++
      (stopPhase link fuel).1, (stopPhase link fuel).2)
  else ([.setVelocityBody hover, .err "Offboard set_velocity_body (hover) failed"], .exited 1)

/-- Rotate-and-climb phase (rotate.cpp lines 97-156): send the neutral
`stay` setpoint (result `link.setVel 0`), start offboard mode, send the
`rotate_climb` setpoint (result `link.setVel 1`), then poll the altitude
every 200 ms until it reaches 5 m; any rejected call prints to stderr and
exits 1.  `j` is the index of the next position read. -/
def rotateClimbPhase (link : Link) (fuel j : Nat) : List Event × Outcome :=
  if link.setVel 0 then
    if link.offboardStartOk then
      if link.setVel 1 then
        match (climbLoop link fuel j).2 with
        | none =>
          ([.setVelocityBody stay, .info "Starting Offboard...", .offboardStart,
            .setVelocityBody rotateClimbSp, .info "Rotating while climbing to 5 m..."] ++
            (climbLoop link fuel j).1, .looping)
        | some _ =>
          ([.setVelocityBody stay, .info "Starting Offboard...", .offboardStart,
            .setVelocityBody rotateClimbSp, .info "Rotating while climbing to 5 m..."] ++
            (climbLoop link fuel j).1 ++ (hoverPhase link fuel).1,
           (hoverPhase link fuel).2)
      else
        ([.setVelocityBody stay, .info "Starting Offboard...", .offboardStart,
          .setVelocityBody rotateClimbSp,
          .err "Offboard set_velocity_body (rotate_climb) failed"], .exited 1)
    else
      ([.setVelocityBody stay, .info "Starting Offboard...", .offboardStart,
        .err "Offboard start failed"], .exited 1)
  else ([.setVelocityBody stay, .err "Offboard set_velocity_body (stay) failed"], .exited 1)

/-- Altitude threshold wait phase (rotate.cpp lines 83-95): print the wait
banner, poll the altitude at 5 Hz until it is strictly above 1 m, then
continue with the rotate-and-climb phase at the next position index. -/
def altWaitPhase (link : Link) (fuel : Nat) : List Event × Outcome :=
  match (alt1Loop link fuel 0).2 with
  | none =>
    (Event.info "Waiting until altitude > 1.0 m..." :: (alt1Loop link fuel 0).1, .looping)
  | some j =>
    (Event.info "Waiting until altitude > 1.0 m..." :: (alt1Loop link fuel 0).1 ++
      (rotateClimbPhase link fuel j).1, (rotateClimbPhase link fuel j).2)

/-- Takeoff phase (rotate.cpp lines 76-81): issue takeoff, on rejection
print to stderr and exit 1. -/
def takeoffPhase (link : Link) (fuel : Nat) : List Event × Outcome :=
  if link.takeoffOk then
    ([.info "Taking off...", .takeoff] ++ (altWaitPhase link fuel).1,
     (altWaitPhase link fuel).2)
  else ([.info "Taking off...", .takeoff, .err "Takeoff failed"], .exited 1)

/-- Arming phase (rotate.cpp lines 67-73): issue arm, on rejection print
to stderr and exit 1. -/
def armPhase (link : Link) (fuel : Nat) : List Event × Outcome :=
  if link.armOk then
    ([.info "Arming...", .arm] ++ (takeoffPhase link fuel).1, (takeoffPhase link fuel).2)
  else ([.info "Arming...", .arm, .err "Arming failed"], .exited 1)

/-- Health wait phase (rotate.cpp lines 61-65): poll health at 1 Hz until
all-clear (no timeout), then continue with arming. -/
def healthPhase (link : Link) (fuel : Nat) : List Event × Outcome :=
  match (healthLoop link fuel 0).2 with
  | none => ((healthLoop link fuel 0).1, .looping)
  | some _ =>
    ((healthLoop link fuel 0).1 ++ (armPhase link fuel).1, (armPhase link fuel).2)

/-- Startup events of a run that reached the telemetry subscription
(rotate.cpp lines 32-59). -/
def setupTr (url : String) : List Event :=
  [.connect url, .discover, .setRate 5, .subscribePosition]

/-- Body of `main` after argument parsing (rotate.cpp lines 31-198):
connect, discover the autopilot, set the position rate to 5 Hz, subscribe
to position updates, then run the phase sequence. -/
def connectedRun (link : Link) (url : String) (fuel : Nat) : List Event × Outcome :=
  if link.connectOk then
    if link.discoverOk then
      if link.setRateOk then
        (setupTr url ++ (healthPhase link fuel).1, (healthPhase link fuel).2)
      else ([.connect url, .discover, .setRate 5, .err "Setting rate failed"], .exited 1)
    else ([.connect url, .discover, .err "Timed out waiting for system"], .exited 1)
  else ([.connect url, .err "Connection failed"], .exited 1)

/-- Usage text printed by `usage` (rotate.cpp lines 18-22). -/
def usageText (bin : String) : String :=
  "Usage : " ++ bin ++ " <connection_url> / Example (SITL): " ++ bin ++ " udp://:14540"

/-- `main` (rotate.cpp lines 24-199): with exactly one positional argument
(argc == 2) run the sequence against the given url, otherwise print usage
to stderr and exit 1. -/
def run (link : Link) (argv : List String) (fuel : Nat) : List Event × Outcome :=
  match argv with
  | [_, url] => connectedRun link url fuel
  | other => ([.err (usageText (other.headD ""))], .exited 1)

/-- Command events: calls issued to the vehicle link. -/
def Event.isCmd : Event → Bool
  | .connect _ => true
  | .setRate _ => true
  | .arm => true
  | .takeoff => true
  | .land => true
  | .offboardStart => true
  | .offboardStop => true
  | .setVelocityBody _ => true
  | _ => false

/-- Stderr events. -/
def Event.isErr : Event → Bool
  | .err _ => true
  | _ => false

/-- Velocity setpoint events. -/
def Event.isSetVel : Event → Bool
  | .setVelocityBody _ => true
  | _ => false

/-- Quiet events: telemetry polls, sleeps and stdout lines.  The polling
loops emit only quiet events. -/
def Event.quiet (e : Event) : Bool := !(e.isCmd || e.isErr)

/-- One failing iteration of the health wait loop: poll, status line, one
second sleep (1 Hz polling). -/
def healthBlock : List Event :=
  [.pollHealth false, .info "Vehicle is getting ready to arm...", .sleepMs 1000]

/-- Closed form of the trace of a first-altitude-wait loop that exits after
`n` below-threshold polls: `n` blocks of poll, status line and 200 ms
sleep, then the final poll with its two status lines. -/
def alt1Trace (link : Link) : Nat → Nat → List Event
  | j, 0 =>
    [.pollPosition (link.position j), .info "Current altitude",
     .info "Altitude above 1.0 m, start rotate + climb."]
  | j, n + 1 =>
    Event.pollPosition (link.position j) :: Event.info "Current altitude" ::
      Event.sleepMs 200 :: alt1Trace link (j + 1) n

/-- Closed form of the trace of a climb loop that exits after `n`
below-target polls. -/
def climbTrace (link : Link) : Nat → Nat → List Event
  | j, 0 =>
    [.pollPosition (link.position j), .info "Rotate+Climb Alt",
     .info "Reached target altitude (5 m). Stop climb & rotation."]
  | j, n + 1 =>
    Event.pollPosition (link.position j) :: Event.info "Rotate+Climb Alt" ::
      Event.sleepMs 200 :: climbTrace link (j + 1) n

/-- Events of a run that reached the arm command: setup plus the health
wait loop. -/
def preArm (link : Link) (url : String) (fuel : Nat) : List Event :=
  setupTr url ++ (healthLoop link fuel 0).1

/-- Events of a run that reached the takeoff command. -/
def preTakeoff (link : Link) (url : String) (fuel : Nat) : List Event :=
  preArm link url fuel ++ [.info "Arming...", .arm]

/-- Events of a run that reached the first (`stay`) setpoint: everything
through the first altitude wait loop. -/
def preStay (link : Link) (url : String) (fuel : Nat) : List Event :=
  preTakeoff link url fuel ++
    [.info "Taking off...", .takeoff, .info "Waiting until altitude > 1.0 m..."] ++
    (alt1Loop link fuel 0).1

/-- Events of a run that reached the climb loop: everything through the
`rotate_climb` setpoint. -/
def preClimb (link : Link) (url : String) (fuel : Nat) : List Event :=
  preStay link url fuel ++
    [.setVelocityBody stay, .info "Starting Offboard...", .offboardStart,
     .setVelocityBody rotateClimbSp, .info "Rotating while climbing to 5 m..."]

/-- Events of a run that reached the `hover` setpoint (`j` is the position
index at which the climb loop started). -/
def preHover (link : Link) (url : String) (fuel j : Nat) : List Event :=
  preClimb link url fuel ++ (climbLoop link fuel j).1

/-- Events of a run that reached the offboard stop call. -/
def preStop (link : Link) (url : String) (fuel j : Nat) : List Event :=
  preHover link url fuel j ++
    [.setVelocityBody hover, .info "Hovering for 5 seconds...", .sleepMs 5000]

/-- Events of a run that reached the land command. -/
def preLand (link : Link) (url : String) (fuel j : Nat) : List Event :=
  preStop link url fuel j ++ [.info "Stopping Offboard...", .offboardStop]

/-- Events of a run that completed the landing wait loop. -/
def preDone (link : Link) (url : String) (fuel j : Nat) : List Event :=
  preLand link url fuel j ++ [.info "Landing...", .land] ++ (landLoop link fuel 0).1

/-- Connection, discovery and telemetry-rate setting all succeeded. -/
def OnlineBase (link : Link) : Prop :=
  link.connectOk = true ∧ link.discoverOk = true ∧ link.setRateOk = true

/-- The run reached the arm command: startup succeeded and the health wait
loop exited. -/
def ReachedArm (link : Link) (fuel : Nat) : Prop :=
  OnlineBase link ∧ (healthLoop link fuel 0).2 = some ()

/-- The run reached the offboard section, with `j` the position read index
after the first altitude wait loop. -/
def ReachedAlt (link : Link) (fuel j : Nat) : Prop :=
  ReachedArm link fuel ∧ link.armOk = true ∧ link.takeoffOk = true ∧
    (alt1Loop link fuel 0).2 = some j

/-- The run reached the `hover` setpoint: the offboard section started and
the climb loop exited. -/
def ReachedHover (link : Link) (fuel j : Nat) : Prop :=
  ReachedAlt link fuel j ∧ link.setVel 0 = true ∧ link.offboardStartOk = true ∧
    link.setVel 1 = true ∧ ∃ k, (climbLoop link fuel j).2 = some k

/-- A link on which every command succeeds, the vehicle is immediately
healthy, the altitude reads j metres on the j-th poll, and the vehicle is
already on the ground when landing is polled. -/
def allLink : Link where
  connectOk := true
  discoverOk := true
  setRateOk := true
  health := fun _ => true
  armOk := true
  takeoffOk := true
  position := fun j => (j : ℚ)
  setVel := fun _ => true
  offboardStartOk := true
  offboardStopOk := true
  landOk := true
  inAir := fun _ => false

/-- Like `allLink` but the vehicle never reports healthy. -/
def sickLink : Link := { allLink with health := fun _ => false }

/-- Like `allLink` but the arm command is rejected. -/
def armFailLink : Link := { allLink with armOk := false }

/-- Position poll events. -/
def Event.isPollPos : Event → Bool
  | .pollPosition _ => true
  | _ => false

/-- Like `allLink` but with the altitude telemetry of the C3 scenario:
readings start at 0 and increase by exactly 0.3 m per poll. -/
def stepLink : Link := { allLink with position := fun k => 3 * (k : ℚ) / 10 }

/-- Full successful completion: argument parsing aside, every command-style
call succeeded and every polling loop exited within the fuel bound (the
landing loop exiting means the in-air poll observed false). -/
def SuccessRun (link : Link) (fuel : Nat) : Prop :=
  OnlineBase link ∧ (healthLoop link fuel 0).2 = some () ∧ link.armOk = true ∧
  link.takeoffOk = true ∧ link.setVel 0 = true ∧ link.offboardStartOk = true ∧
  link.setVel 1 = true ∧ link.setVel 2 = true ∧ link.offboardStopOk = true ∧
  link.landOk = true ∧
  (∃ j, (alt1Loop link fuel 0).2 = some j ∧ ∃ k, (climbLoop link fuel j).2 = some k) ∧
  (landLoop link fuel 0).2 = some ()

theorem quiet_spec {e : Event} (h : e.quiet = true) :
    e.isCmd = false ∧ e.isErr = false ∧ e.isSetVel = false := by
  cases e <;> simp_all [Event.quiet, Event.isCmd, Event.isErr, Event.isSetVel]

theorem countP_setVel_eq_zero {l : List Event}
    (h : ∀ e ∈ l, e.quiet = true) : l.countP Event.isSetVel = 0 :=
  List.countP_eq_zero.mpr fun e he => by
    simp [(quiet_spec (h e he)).2.2]

theorem healthLoop_quiet (link : Link) :
    ∀ fuel k, ∀ e ∈ (healthLoop link fuel k).1, e.quiet = true := by
  intro fuel
  induction fuel with
  | zero => intro k e he; simp [healthLoop] at he
  | succ n ih =>
    intro k e he
    by_cases h : link.health k
    · simp [healthLoop, h] at he
      subst he; rfl
    · simp only [healthLoop, if_neg h, List.mem_cons] at he
      rcases he with he | he | he | he
      · subst he; rfl
      · subst he; rfl
      · subst he; rfl
      · exact ih _ e he

theorem alt1Loop_quiet (link : Link) :
    ∀ fuel j, ∀ e ∈ (alt1Loop link fuel j).1, e.quiet = true := by
  intro fuel
  induction fuel with
  | zero => intro j e he; simp [alt1Loop] at he
  | succ n ih =>
    intro j e he
    by_cases h : link.position j > 1
    · simp [alt1Loop, h] at he
      rcases he with he | he | he <;> (subst he; rfl)
    · simp only [alt1Loop, if_neg h, List.mem_cons] at he
      rcases he with he | he | he | he
      · subst he; rfl
      · subst he; rfl
      · subst he; rfl
      · exact ih _ e he

theorem climbLoop_quiet (link : Link) :
    ∀ fuel j, ∀ e ∈ (climbLoop link fuel j).1, e.quiet = true := by
  intro fuel
  induction fuel with
  | zero => intro j e he; simp [climbLoop] at he
  | succ n ih =>
    intro j e he
    by_cases h : 5 ≤ link.position j
    · simp [climbLoop, h] at he
      rcases he with he | he | he <;> (subst he; rfl)
    · simp only [climbLoop, if_neg h, List.mem_cons] at he
      rcases he with he | he | he | he
      · subst he; rfl
      · subst he; rfl
      · subst he; rfl
      · exact ih _ e he

theorem landLoop_quiet (link : Link) :
    ∀ fuel k, ∀ e ∈ (landLoop link fuel k).1, e.quiet = true := by
  intro fuel
  induction fuel with
  | zero => intro k e he; simp [landLoop] at he
  | succ n ih =>
    intro k e he
    by_cases h : link.inAir k
    · simp only [landLoop, if_pos h, List.mem_cons] at he
      rcases he with he | he | he | he
      · subst he; rfl
      · subst he; rfl
      · subst he; rfl
      · exact ih _ e he
    · simp [landLoop, h] at he
      subst he; rfl

/-- If the vehicle never becomes healthy, the health loop consumes all its
fuel, repeating the 1 Hz poll-print-sleep block, and never exits. -/
theorem healthLoop_never (link : Link) (h : ∀ k, link.health k = false) :
    ∀ fuel k, healthLoop link fuel k = (List.flatten (List.replicate fuel healthBlock), none) := by
  intro fuel
  induction fuel with
  | zero => intro k; simp [healthLoop]
  | succ n ih =>
    intro k
    simp [healthLoop, h k, ih (k + 1), List.replicate_succ, healthBlock]

/-- A health loop that exits does so right after a successful poll: its
trace ends with `pollHealth true`, preceded only by quiet events. -/
theorem healthLoop_success (link : Link) :
    ∀ fuel k, (healthLoop link fuel k).2 = some () →
      ∃ a, (healthLoop link fuel k).1 = a ++ [.pollHealth true] ∧ ∀ e ∈ a, e.quiet = true := by
  intro fuel
  induction fuel with
  | zero => intro k hk; simp [healthLoop] at hk
  | succ n ih =>
    intro k hk
    by_cases h : link.health k
    · exact ⟨[], by simp [healthLoop, h], by simp⟩
    · simp only [healthLoop, if_neg h] at hk ⊢
      obtain ⟨a, ha, hq⟩ := ih (k + 1) hk
      refine ⟨Event.pollHealth false :: Event.info "Vehicle is getting ready to arm..." ::
        Event.sleepMs 1000 :: a, by simp [ha], ?_⟩
      intro e he
      simp only [List.mem_cons] at he
      rcases he with he | he | he | he
      · subst he; rfl
      · subst he; rfl
      · subst he; rfl
      · exact hq e he

/-- If reads `j, …, j+n-1` stay at or below 1 m and read `j+n` is strictly
above, the first altitude loop performs exactly those `n+1` polls (one per
200 ms) and exits at position index `j+n+1`. -/
theorem alt1Loop_spec (link : Link) :
    ∀ n fuel j, n < fuel → (∀ i, i < n → link.position (j + i) ≤ 1) →
      1 < link.position (j + n) →
      alt1Loop link fuel j = (alt1Trace link j n, some (j + n + 1)) := by
  intro n
  induction n with
  | zero =>
    intro fuel j hf _ h1
    obtain ⟨f, rfl⟩ : ∃ f, fuel = f + 1 := ⟨fuel - 1, by omega⟩
    simp only [alt1Loop]
    rw [if_pos (by simpa using h1)]
    simp [alt1Trace]
  | succ n ih =>
    intro fuel j hf hle h1
    obtain ⟨f, rfl⟩ : ∃ f, fuel = f + 1 := ⟨fuel - 1, by omega⟩
    have hj : link.position j ≤ 1 := by simpa using hle 0 (by omega)
    have hrec := ih f (j + 1) (by omega)
      (fun i hi => by
        have h := hle (i + 1) (by omega)
        have he : j + (i + 1) = j + 1 + i := by omega
        rwa [he] at h)
      (by
        have he : j + (n + 1) = j + 1 + n := by omega
        rwa [he] at h1)
    simp only [alt1Loop]
    rw [if_neg (by exact not_lt.mpr hj), hrec]
    have hidx : j + 1 + n + 1 = j + n + 1 + 1 := by omega
    rw [hidx]
    simp [alt1Trace]
    omega

/-- If reads `j, …, j+n-1` are below 5 m and read `j+n` is at or above,
the climb loop performs exactly those `n+1` polls (one per 200 ms) and
exits at position index `j+n+1`. -/
theorem climbLoop_spec (link : Link) :
    ∀ n fuel j, n < fuel → (∀ i, i < n → link.position (j + i) < 5) →
      5 ≤ link.position (j + n) →
      climbLoop link fuel j = (climbTrace link j n, some (j + n + 1)) := by
  intro n
  induction n with
  | zero =>
    intro fuel j hf _ h5
    obtain ⟨f, rfl⟩ : ∃ f, fuel = f + 1 := ⟨fuel - 1, by omega⟩
    simp only [climbLoop]
    rw [if_pos (by simpa using h5)]
    simp [climbTrace]
  | succ n ih =>
    intro fuel j hf hlt h5
    obtain ⟨f, rfl⟩ : ∃ f, fuel = f + 1 := ⟨fuel - 1, by omega⟩
    have hj : link.position j < 5 := by simpa using hlt 0 (by omega)
    have hrec := ih f (j + 1) (by omega)
      (fun i hi => by
        have h := hlt (i + 1) (by omega)
        have he : j + (i + 1) = j + 1 + i := by omega
        rwa [he] at h)
      (by
        have he : j + (n + 1) = j + 1 + n := by omega
        rwa [he] at h5)
    simp only [climbLoop]
    rw [if_neg (by exact not_le.mpr hj), hrec]
    have hidx : j + 1 + n + 1 = j + n + 1 + 1 := by omega
    rw [hidx]
    simp [climbTrace]
    omega

/-- The events of the closed-form climb trace are quiet. -/
theorem climbTrace_quiet (link : Link) :
    ∀ n j, ∀ e ∈ climbTrace link j n, e.quiet = true := by
  intro n
  induction n with
  | zero =>
    intro j e he
    simp [climbTrace] at he
    rcases he with he | he | he <;> (subst he; rfl)
  | succ n ih =>
    intro j e he
    simp only [climbTrace, List.mem_cons] at he
    rcases he with he | he | he | he
    · subst he; rfl
    · subst he; rfl
    · subst he; rfl
    · exact ih _ e he

/-- Exhaustive case analysis of a connected run of rotate.cpp: exactly one
of the sixteen control-flow exits is taken, and in each case the event
trace and outcome have the stated shape. -/
theorem connectedRun_cases (link : Link) (url : String) (fuel : Nat) :
    (link.connectOk = false ∧
      connectedRun link url fuel = ([.connect url, .err "Connection failed"], .exited 1))
  ∨ (link.connectOk = true ∧ link.discoverOk = false ∧
      connectedRun link url fuel =
        ([.connect url, .discover, .err "Timed out waiting for system"], .exited 1))
  ∨ (link.connectOk = true ∧ link.discoverOk = true ∧ link.setRateOk = false ∧
      connectedRun link url fuel =
        ([.connect url, .discover, .setRate 5, .err "Setting rate failed"], .exited 1))
  ∨ (OnlineBase link ∧ (healthLoop link fuel 0).2 = none ∧
      connectedRun link url fuel = (setupTr url ++ (healthLoop link fuel 0).1, .looping))
  ∨ (ReachedArm link fuel ∧ link.armOk = false ∧
      connectedRun link url fuel =
        (preArm link url fuel ++ [.info "Arming...", .arm, .err "Arming failed"], .exited 1))
  ∨ (ReachedArm link fuel ∧ link.armOk = true ∧ link.takeoffOk = false ∧
      connectedRun link url fuel =
        (preTakeoff link url fuel ++ [.info "Taking off...", .takeoff, .err "Takeoff failed"],
         .exited 1))
  ∨ (ReachedArm link fuel ∧ link.armOk = true ∧ link.takeoffOk = true ∧
      (alt1Loop link fuel 0).2 = none ∧
      connectedRun link url fuel = (preStay link url fuel, .looping))
  ∨ (∃ j, ReachedAlt link fuel j ∧ link.setVel 0 = false ∧
      connectedRun link url fuel =
        (preStay link url fuel ++
          [.setVelocityBody stay, .err "Offboard set_velocity_body (stay) failed"], .exited 1))
  ∨ (∃ j, ReachedAlt link fuel j ∧ link.setVel 0 = true ∧ link.offboardStartOk = false ∧
      connectedRun link url fuel =
        (preStay link url fuel ++
          [.setVelocityBody stay, .info "Starting Offboard...", .offboardStart,
           .err "Offboard start failed"], .exited 1))
  ∨ (∃ j, ReachedAlt link fuel j ∧ link.setVel 0 = true ∧ link.offboardStartOk = true ∧
      link.setVel 1 = false ∧
      connectedRun link url fuel =
        (preStay link url fuel ++
          [.setVelocityBody stay, .info "Starting Offboard...", .offboardStart,
           .setVelocityBody rotateClimbSp,
           .err "Offboard set_velocity_body (rotate_climb) failed"], .exited 1))
  ∨ (∃ j, ReachedAlt link fuel j ∧ link.setVel 0 = true ∧ link.offboardStartOk = true ∧
      link.setVel 1 = true ∧ (climbLoop link fuel j).2 = none ∧
      connectedRun link url fuel = (preHover link url fuel j, .looping))
  ∨ (∃ j, ReachedHover link fuel j ∧ link.setVel 2 = false ∧
      connectedRun link url fuel =
        (preHover link url fuel j ++
          [.setVelocityBody hover, .err "Offboard set_velocity_body (hover) failed"], .exited 1))
  ∨ (∃ j, ReachedHover link fuel j ∧ link.setVel 2 = true ∧ link.offboardStopOk = false ∧
      connectedRun link url fuel =
        (preStop link url fuel j ++
          [.info "Stopping Offboard...", .offboardStop, .err "Offboard stop failed"], .exited 1))
  ∨ (∃ j, ReachedHover link fuel j ∧ link.setVel 2 = true ∧ link.offboardStopOk = true ∧
      link.landOk = false ∧
      connectedRun link url fuel =
        (preLand link url fuel j ++ [.info "Landing...", .land, .err "Land failed"], .exited 1))
  ∨ (∃ j, ReachedHover link fuel j ∧ link.setVel 2 = true ∧ link.offboardStopOk = true ∧
      link.landOk = true ∧ (landLoop link fuel 0).2 = none ∧
      connectedRun link url fuel = (preDone link url fuel j, .looping))
  ∨ (∃ j, ReachedHover link fuel j ∧ link.setVel 2 = true ∧ link.offboardStopOk = true ∧
      link.landOk = true ∧ (landLoop link fuel 0).2 = some () ∧
      connectedRun link url fuel =
        (preDone link url fuel j ++ [.info "Landed. Finished."], .exited 0)) := by
  by_cases hc : link.connectOk = true
  · refine Or.inr ?_
    by_cases hd : link.discoverOk = true
    · refine Or.inr ?_
      by_cases hr : link.setRateOk = true
      · refine Or.inr ?_
        cases hH : (healthLoop link fuel 0).2 with
        | none =>
          exact Or.inl ⟨⟨hc, hd, hr⟩, rfl,
            by simp [connectedRun, healthPhase, hc, hd, hr, hH]⟩
        | some u =>
          cases u
          refine Or.inr ?_
          by_cases ha : link.armOk = true
          · refine Or.inr ?_
            by_cases ht : link.takeoffOk = true
            · refine Or.inr ?_
              cases hA : (alt1Loop link fuel 0).2 with
              | none =>
                exact Or.inl ⟨⟨⟨hc, hd, hr⟩, hH⟩, ha, ht, rfl,
                  by simp [connectedRun, healthPhase, armPhase, takeoffPhase, altWaitPhase,
                    preStay, preTakeoff, preArm, setupTr, hc, hd, hr, hH, ha, ht, hA,
                    List.append_assoc]⟩
              | some j =>
                refine Or.inr ?_
                by_cases hs0 : link.setVel 0 = true
                · refine Or.inr ?_
                  by_cases hst : link.offboardStartOk = true
                  · refine Or.inr ?_
                    by_cases hs1 : link.setVel 1 = true
                    · refine Or.inr ?_
                      cases hC : (climbLoop link fuel j).2 with
                      | none =>
                        exact Or.inl ⟨j, ⟨⟨⟨hc, hd, hr⟩, hH⟩, ha, ht, hA⟩, hs0, hst, hs1, hC,
                          by simp [connectedRun, healthPhase, armPhase, takeoffPhase,
                            altWaitPhase, rotateClimbPhase, preHover, preClimb, preStay,
                            preTakeoff, preArm, setupTr, hc, hd, hr, hH, ha, ht, hA, hs0,
                            hst, hs1, hC, List.append_assoc]⟩
                      | some k =>
                        refine Or.inr ?_
                        by_cases hs2 : link.setVel 2 = true
                        · refine Or.inr ?_
                          by_cases hsp : link.offboardStopOk = true
                          · refine Or.inr ?_
                            by_cases hl : link.landOk = true
                            · refine Or.inr ?_
                              cases hL : (landLoop link fuel 0).2 with
                              | none =>
                                exact Or.inl ⟨j, ⟨⟨⟨⟨hc, hd, hr⟩, hH⟩, ha, ht, hA⟩, hs0, hst,
                                  hs1, k, hC⟩, hs2, hsp, hl, rfl,
                                  by simp [connectedRun, healthPhase, armPhase, takeoffPhase,
                                    altWaitPhase, rotateClimbPhase, hoverPhase, stopPhase,
                                    landPhase, preDone, preLand, preStop, preHover, preClimb,
                                    preStay, preTakeoff, preArm, setupTr, hc, hd, hr, hH, ha,
                                    ht, hA, hs0, hst, hs1, hC, hs2, hsp, hl, hL,
                                    List.append_assoc]⟩
                              | some v =>
                                cases v
                                refine Or.inr ?_
                                exact ⟨j, ⟨⟨⟨⟨hc, hd, hr⟩, hH⟩, ha, ht, hA⟩, hs0, hst,
                                  hs1, k, hC⟩, hs2, hsp, hl, rfl,
                                  by simp [connectedRun, healthPhase, armPhase, takeoffPhase,
                                    altWaitPhase, rotateClimbPhase, hoverPhase, stopPhase,
                                    landPhase, preDone, preLand, preStop, preHover, preClimb,
                                    preStay, preTakeoff, preArm, setupTr, hc, hd, hr, hH, ha,
                                    ht, hA, hs0, hst, hs1, hC, hs2, hsp, hl, hL,
                                    List.append_assoc]⟩
                            · exact Or.inl ⟨j, ⟨⟨⟨⟨hc, hd, hr⟩, hH⟩, ha, ht, hA⟩, hs0, hst,
                                hs1, k, hC⟩, hs2, hsp, by simpa using hl,
                                by simp [connectedRun, healthPhase, armPhase, takeoffPhase,
                                  altWaitPhase, rotateClimbPhase, hoverPhase, stopPhase,
                                  landPhase, preLand, preStop, preHover, preClimb, preStay,
                                  preTakeoff, preArm, setupTr, hc, hd, hr, hH, ha, ht, hA,
                                  hs0, hst, hs1, hC, hs2, hsp,
                                  (by simpa using hl : link.landOk = false),
                                  List.append_assoc]⟩
                          · exact Or.inl ⟨j, ⟨⟨⟨⟨hc, hd, hr⟩, hH⟩, ha, ht, hA⟩, hs0, hst,
                              hs1, k, hC⟩, hs2, by simpa using hsp,
                              by simp [connectedRun, healthPhase, armPhase, takeoffPhase,
                                altWaitPhase, rotateClimbPhase, hoverPhase, stopPhase,
                                preStop, preHover, preClimb, preStay, preTakeoff, preArm,
                                setupTr, hc, hd, hr, hH, ha, ht, hA, hs0, hst, hs1, hC, hs2,
                                (by simpa using hsp : link.offboardStopOk = false),
                                List.append_assoc]⟩
                        · exact Or.inl ⟨j, ⟨⟨⟨⟨hc, hd, hr⟩, hH⟩, ha, ht, hA⟩, hs0, hst,
                            hs1, k, hC⟩, by simpa using hs2,
                            by simp [connectedRun, healthPhase, armPhase, takeoffPhase,
                              altWaitPhase, rotateClimbPhase, hoverPhase, preHover, preClimb,
                              preStay, preTakeoff, preArm, setupTr, hc, hd, hr, hH, ha, ht,
                              hA, hs0, hst, hs1, hC,
                              (by simpa using hs2 : link.setVel 2 = false),
                              List.append_assoc]⟩
                    · exact Or.inl ⟨j, ⟨⟨⟨hc, hd, hr⟩, hH⟩, ha, ht, hA⟩, hs0, hst,
                        by simpa using hs1,
                        by simp [connectedRun, healthPhase, armPhase, takeoffPhase,
                          altWaitPhase, rotateClimbPhase, preStay, preTakeoff, preArm,
                          setupTr, hc, hd, hr, hH, ha, ht, hA, hs0, hst,
                          (by simpa using hs1 : link.setVel 1 = false), List.append_assoc]⟩
                  · exact Or.inl ⟨j, ⟨⟨⟨hc, hd, hr⟩, hH⟩, ha, ht, hA⟩, hs0,
                      by simpa using hst,
                      by simp [connectedRun, healthPhase, armPhase, takeoffPhase,
                        altWaitPhase, rotateClimbPhase, preStay, preTakeoff, preArm, setupTr,
                        hc, hd, hr, hH, ha, ht, hA, hs0,
                        (by simpa using hst : link.offboardStartOk = false),
                        List.append_assoc]⟩
                · exact Or.inl ⟨j, ⟨⟨⟨hc, hd, hr⟩, hH⟩, ha, ht, hA⟩, by simpa using hs0,
                    by simp [connectedRun, healthPhase, armPhase, takeoffPhase, altWaitPhase,
                      rotateClimbPhase, preStay, preTakeoff, preArm, setupTr, hc, hd, hr, hH,
                      ha, ht, hA, (by simpa using hs0 : link.setVel 0 = false),
                      List.append_assoc]⟩
            · exact Or.inl ⟨⟨⟨hc, hd, hr⟩, hH⟩, ha, by simpa using ht,
                by simp [connectedRun, healthPhase, armPhase, takeoffPhase, preTakeoff,
                  preArm, setupTr, hc, hd, hr, hH, ha,
                  (by simpa using ht : link.takeoffOk = false), List.append_assoc]⟩
          · exact Or.inl ⟨⟨⟨hc, hd, hr⟩, hH⟩, by simpa using ha,
              by simp [connectedRun, healthPhase, armPhase, preArm, setupTr, hc, hd, hr, hH,
                (by simpa using ha : link.armOk = false), List.append_assoc]⟩
      · exact Or.inl ⟨hc, hd, by simpa using hr,
          by simp [connectedRun, hc, hd, (by simpa using hr : link.setRateOk = false)]⟩
    · exact Or.inl ⟨hc, by simpa using hd,
        by simp [connectedRun, hc, (by simpa using hd : link.discoverOk = false)]⟩
  · exact Or.inl ⟨by simpa using hc,
      by simp [connectedRun, (by simpa using hc : link.connectOk = false)]⟩

theorem not_mem_of_quiet {l : List Event} (hq : ∀ e ∈ l, e.quiet = true) {e : Event}
    (he : e.quiet = false) : e ∉ l := fun h => by rw [hq e h] at he; cases he

theorem err_not_mem_of_quiet {l : List Event} (hq : ∀ e ∈ l, e.quiet = true) (s : String) :
    Event.err s ∉ l :=
  not_mem_of_quiet hq rfl

/-- Claim C9: when invoked with zero or two-or-more CLI arguments (argument
count other than exactly one positional argument, i.e. argc ≠ 2), the
program prints the usage message to the error stream and exits with status
1 without attempting any connection. -/
theorem C9_usage_on_bad_arity (link : Link) (argv : List String) (fuel : Nat)
    (h : argv.length ≠ 2) :
    run link argv fuel = ([.err (usageText (argv.headD ""))], .exited 1) ∧
      ∀ u, Event.connect u ∉ (run link argv fuel).1 := by
  have hr : run link argv fuel = ([.err (usageText (argv.headD ""))], .exited 1) := by
    rcases argv with _ | ⟨a, _ | ⟨b, _ | ⟨c, rest⟩⟩⟩
    · rfl
    · rfl
    · simp at h
    · rfl
  refine ⟨hr, fun u hu => ?_⟩
  rw [hr] at hu
  simp at hu

/-- Witness for C9 at argc = 1 (no positional argument). -/
theorem C9_usage_on_bad_arity_witness :
    run allLink [] 0 = ([.err (usageText "")], .exited 1) ∧
      ∀ u, Event.connect u ∉ (run allLink [] 0).1 :=
  C9_usage_on_bad_arity allLink [] 0 (by decide)

/-- Claim C7: if the arm command reports a non-success result, the process
exits with status 1 and the takeoff command is never called (the trace ends
at the arming error). -/
theorem C7_arm_failure_no_takeoff (link : Link) (bin url : String) (fuel : Nat)
    (hb : OnlineBase link) (hH : (healthLoop link fuel 0).2 = some ())
    (ha : link.armOk = false) :
    (run link [bin, url] fuel).2 = .exited 1 ∧
      Event.takeoff ∉ (run link [bin, url] fuel).1 ∧
      Event.err "Arming failed" ∈ (run link [bin, url] fuel).1 := by
  obtain ⟨h1, h2, h3⟩ := hb
  have hr : run link [bin, url] fuel =
      (preArm link url fuel ++ [.info "Arming...", .arm, .err "Arming failed"], .exited 1) := by
    simp [run, connectedRun, h1, h2, h3, healthPhase, hH, armPhase, ha, preArm, setupTr,
      List.append_assoc]
  refine ⟨by rw [hr], fun hm => ?_, by rw [hr]; simp⟩
  rw [hr] at hm
  simp [preArm, setupTr] at hm
  exact absurd hm (not_mem_of_quiet (healthLoop_quiet link fuel 0) rfl)

/-- Witness for C7: arm rejected on an otherwise healthy link. -/
theorem C7_arm_failure_no_takeoff_witness :
    (run armFailLink ["rotate", "udp"] 1).2 = .exited 1 ∧
      Event.takeoff ∉ (run armFailLink ["rotate", "udp"] 1).1 ∧
      Event.err "Arming failed" ∈ (run armFailLink ["rotate", "udp"] 1).1 :=
  C7_arm_failure_no_takeoff armFailLink "rotate" "udp" 1 ⟨rfl, rfl, rfl⟩ rfl rfl

/-- If the health phase trace contains the arm event, the health loop
exited and the trace splits into the loop trace followed by the arm phase
trace. -/
theorem healthPhase_arm (link : Link) (fuel : Nat)
    (hm : Event.arm ∈ (healthPhase link fuel).1) :
    (healthLoop link fuel 0).2 = some () ∧
    (healthPhase link fuel).1 = (healthLoop link fuel 0).1 ++ (armPhase link fuel).1 ∧
    Event.arm ∈ (armPhase link fuel).1 := by
  cases hH : (healthLoop link fuel 0).2 with
  | none =>
    rw [healthPhase] at hm
    rw [hH] at hm
    exact absurd hm (not_mem_of_quiet (healthLoop_quiet link fuel 0) rfl)
  | some u =>
    cases u
    refine ⟨rfl, by simp [healthPhase, hH], ?_⟩
    rw [healthPhase] at hm
    rw [hH] at hm
    rcases List.mem_append.mp hm with h | h
    · exact absurd h (not_mem_of_quiet (healthLoop_quiet link fuel 0) rfl)
    · exact h

/-- The arm phase trace always begins with the arming status line and the
arm command. -/
theorem armPhase_shape (link : Link) (fuel : Nat) :
    ∃ rest, (armPhase link fuel).1 = Event.info "Arming..." :: Event.arm :: rest := by
  by_cases ha : link.armOk = true
  · exact ⟨(takeoffPhase link fuel).1, by simp [armPhase, ha]⟩
  · exact ⟨[Event.err "Arming failed"],
      by simp [armPhase, (by simpa using ha : link.armOk = false)]⟩

/-- Claim C6: the arm command is issued only after a health poll has
returned all-clear; the health-wait loop polls at 1 Hz with no timeout, so
on a run where health never becomes OK the whole remaining fuel is spent
on poll-print-sleep blocks, the arm command is never issued, and the
process never exits on its own (the outcome is `looping` for every
fuel). -/
theorem C6_health_wait_blocks_arm (link : Link) (bin url : String) (fuel : Nat)
    (hb : OnlineBase link) (hh : ∀ k, link.health k = false) :
    run link [bin, url] fuel =
      (setupTr url ++ List.flatten (List.replicate fuel healthBlock), .looping) ∧
    Event.arm ∉ (run link [bin, url] fuel).1 ∧
    (∀ link2 argv2 fuel2, Event.arm ∈ (run link2 argv2 fuel2).1 →
      ∃ a b, (run link2 argv2 fuel2).1 = a ++ Event.pollHealth true :: b ∧
        Event.arm ∈ b) := by
  obtain ⟨h1, h2, h3⟩ := hb
  have hnever := healthLoop_never link hh fuel 0
  have hr : run link [bin, url] fuel =
      (setupTr url ++ List.flatten (List.replicate fuel healthBlock), .looping) := by
    simp [run, connectedRun, h1, h2, h3, healthPhase, hnever]
  refine ⟨hr, fun hm => ?_, fun link2 argv2 fuel2 hm => ?_⟩
  · rw [hr] at hm
    simp [setupTr, List.mem_flatten] at hm
    rcases hm with ⟨l, ⟨-, rfl⟩, hl⟩
    simp [healthBlock] at hl
  · rcases argv2 with _ | ⟨a, _ | ⟨b, _ | ⟨c, rest⟩⟩⟩
    · simp [run] at hm
    · simp [run, usageText] at hm
    · have hcr : run link2 [a, b] fuel2 = connectedRun link2 b fuel2 := rfl
      rw [hcr] at hm ⊢
      by_cases hc : link2.connectOk = true
      · by_cases hd : link2.discoverOk = true
        · by_cases hrk : link2.setRateOk = true
          · have htr : (connectedRun link2 b fuel2).1 =
                setupTr b ++ (healthPhase link2 fuel2).1 := by
              simp [connectedRun, hc, hd, hrk]
            rw [htr] at hm
            have hm2 : Event.arm ∈ (healthPhase link2 fuel2).1 := by
              rcases List.mem_append.mp hm with h | h
              · simp [setupTr] at h
              · exact h
            obtain ⟨hH, hdec, -⟩ := healthPhase_arm link2 fuel2 hm2
            obtain ⟨rest, hrest⟩ := armPhase_shape link2 fuel2
            obtain ⟨a0, ha0, -⟩ := healthLoop_success link2 fuel2 0 hH
            refine ⟨setupTr b ++ a0, Event.info "Arming..." :: Event.arm :: rest, ?_, by simp⟩
            rw [htr, hdec, hrest, ha0]
            simp [List.append_assoc]
          · simp [connectedRun, hc, hd,
              (by simpa using hrk : link2.setRateOk = false)] at hm
        · simp [connectedRun, hc,
            (by simpa using hd : link2.discoverOk = false)] at hm
      · simp [connectedRun, (by simpa using hc : link2.connectOk = false)] at hm
    · simp [run, usageText] at hm

/-- Witness for C6 on a link that never becomes healthy, with fuel 2. -/
theorem C6_health_wait_blocks_arm_witness :
    run sickLink ["rotate", "udp"] 2 =
      (setupTr "udp" ++ List.flatten (List.replicate 2 healthBlock), .looping) ∧
    Event.arm ∉ (run sickLink ["rotate", "udp"] 2).1 ∧
    (∀ link2 argv2 fuel2, Event.arm ∈ (run link2 argv2 fuel2).1 →
      ∃ a b, (run link2 argv2 fuel2).1 = a ++ Event.pollHealth true :: b ∧
        Event.arm ∈ b) :=
  C6_health_wait_blocks_arm sickLink "rotate" "udp" 2 ⟨rfl, rfl, rfl⟩ (fun _ => rfl)

/-- Claim C1: in the rotate variant the Rotate+Climb phase performs, in
this order: exactly one neutral (all-zero) `stay` setpoint, then the
offboard start, then one constant setpoint whose down-velocity is
-0.5 m/s (climb) and whose yaw rate is 45 deg/s, then altitude polls every
200 ms (the climb trace) until the reading is at least 5 m. -/
theorem C1_rotate_climb_phase_order (link : Link) (fuel j n : Nat)
    (h0 : link.setVel 0 = true) (h1 : link.offboardStartOk = true)
    (h2 : link.setVel 1 = true)
    (hlt : ∀ i, i < n → link.position (j + i) < 5)
    (h5 : 5 ≤ link.position (j + n)) (hf : n < fuel) :
    rotateClimbPhase link fuel j =
      ([.setVelocityBody stay, .info "Starting Offboard...", .offboardStart,
        .setVelocityBody rotateClimbSp, .info "Rotating while climbing to 5 m..."] ++
        climbTrace link j n ++ (hoverPhase link fuel).1, (hoverPhase link fuel).2) ∧
    stay = ⟨0, 0, 0, 0⟩ ∧
    rotateClimbSp.down_m_s = -(1/2) ∧ rotateClimbSp.yawspeed_deg_s = 45 := by
  have hcl := climbLoop_spec link n fuel j hf hlt h5
  refine ⟨?_, rfl, rfl, rfl⟩
  simp [rotateClimbPhase, h0, h1, h2, hcl, List.append_assoc]

/-- Witness for C1: integer-metre altitude readings reach 5 m on the sixth
climb poll. -/
theorem C1_rotate_climb_phase_order_witness :
    rotateClimbPhase allLink 6 0 =
      ([.setVelocityBody stay, .info "Starting Offboard...", .offboardStart,
        .setVelocityBody rotateClimbSp, .info "Rotating while climbing to 5 m..."] ++
        climbTrace allLink 0 5 ++ (hoverPhase allLink 6).1, (hoverPhase allLink 6).2) ∧
    stay = ⟨0, 0, 0, 0⟩ ∧
    rotateClimbSp.down_m_s = -(1/2) ∧ rotateClimbSp.yawspeed_deg_s = 45 :=
  C1_rotate_climb_phase_order allLink 6 0 5 rfl rfl rfl (by decide) (by decide) (by decide)

/-- Claim C4: in every run whose climb loop observes altitude at or above
5 m, exactly one neutral (all-zero) setpoint is sent between that
observation and the offboard-stop call (the four events separating the
climb trace from `offboardStop` contain exactly one setpoint, the neutral
`hover`), and offboard mode is still active then: `offboardStart` occurs
earlier and `offboardStop` does not occur up to and including the neutral
setpoint. -/
theorem C4_single_neutral_before_stop (link : Link) (fuel j n : Nat)
    (h0 : link.setVel 0 = true) (h1 : link.offboardStartOk = true)
    (h2 : link.setVel 1 = true) (h3 : link.setVel 2 = true)
    (hlt : ∀ i, i < n → link.position (j + i) < 5)
    (h5 : 5 ≤ link.position (j + n)) (hf : n < fuel) :
    ∃ tail o,
      rotateClimbPhase link fuel j =
        ([.setVelocityBody stay, .info "Starting Offboard...", .offboardStart,
          .setVelocityBody rotateClimbSp, .info "Rotating while climbing to 5 m..."] ++
          climbTrace link j n ++
          [.setVelocityBody hover, .info "Hovering for 5 seconds...", .sleepMs 5000,
           .info "Stopping Offboard...", .offboardStop] ++ tail, o) ∧
      hover = ⟨0, 0, 0, 0⟩ ∧
      List.countP Event.isSetVel
        [Event.setVelocityBody hover, Event.info "Hovering for 5 seconds...",
         Event.sleepMs 5000, Event.info "Stopping Offboard..."] = 1 ∧
      Event.offboardStop ∉
        ([.setVelocityBody stay, .info "Starting Offboard...", .offboardStart,
          .setVelocityBody rotateClimbSp, .info "Rotating while climbing to 5 m..."] ++
          climbTrace link j n ++ [Event.setVelocityBody hover]) ∧
      Event.offboardStart ∈
        [Event.setVelocityBody stay, Event.info "Starting Offboard...", Event.offboardStart,
         Event.setVelocityBody rotateClimbSp,
         Event.info "Rotating while climbing to 5 m..."] := by
  have hcl := climbLoop_spec link n fuel j hf hlt h5
  have hnostop : Event.offboardStop ∉
      ([Event.setVelocityBody stay, Event.info "Starting Offboard...", Event.offboardStart,
        Event.setVelocityBody rotateClimbSp, Event.info "Rotating while climbing to 5 m..."] ++
        climbTrace link j n ++ [Event.setVelocityBody hover]) := by
    intro hmem
    simp [List.mem_append] at hmem
    exact absurd hmem (not_mem_of_quiet (climbTrace_quiet link n j) rfl)
  by_cases hsp : link.offboardStopOk = true
  · refine ⟨(landPhase link fuel).1, (landPhase link fuel).2, ?_, rfl, by decide, hnostop,
      by simp⟩
    simp [rotateClimbPhase, h0, h1, h2, hcl, hoverPhase, h3, stopPhase, hsp,
      List.append_assoc]
  · refine ⟨[Event.err "Offboard stop failed"], .exited 1, ?_, rfl, by decide, hnostop,
      by simp⟩
    simp [rotateClimbPhase, h0, h1, h2, hcl, hoverPhase, h3, stopPhase,
      (by simpa using hsp : link.offboardStopOk = false), List.append_assoc]

/-- Witness for C4 on `allLink`. -/
theorem C4_single_neutral_before_stop_witness :
    ∃ tail o,
      rotateClimbPhase allLink 6 0 =
        ([.setVelocityBody stay, .info "Starting Offboard...", .offboardStart,
          .setVelocityBody rotateClimbSp, .info "Rotating while climbing to 5 m..."] ++
          climbTrace allLink 0 5 ++
          [.setVelocityBody hover, .info "Hovering for 5 seconds...", .sleepMs 5000,
           .info "Stopping Offboard...", .offboardStop] ++ tail, o) ∧
      hover = ⟨0, 0, 0, 0⟩ ∧
      List.countP Event.isSetVel
        [Event.setVelocityBody hover, Event.info "Hovering for 5 seconds...",
         Event.sleepMs 5000, Event.info "Stopping Offboard..."] = 1 ∧
      Event.offboardStop ∉
        ([.setVelocityBody stay, .info "Starting Offboard...", .offboardStart,
          .setVelocityBody rotateClimbSp, .info "Rotating while climbing to 5 m..."] ++
          climbTrace allLink 0 5 ++ [Event.setVelocityBody hover]) ∧
      Event.offboardStart ∈
        [Event.setVelocityBody stay, Event.info "Starting Offboard...", Event.offboardStart,
         Event.setVelocityBody rotateClimbSp,
         Event.info "Rotating while climbing to 5 m..."] :=
  C4_single_neutral_before_stop allLink 6 0 5 rfl rfl rfl rfl (by decide) (by decide)
    (by decide)

/-- Counterexample to claim C5 as stated: on a fully successful concrete
run the unique 5-second hover sleep occurs strictly before the unique
offboard-stop call, not after it — the program hovers while still in
offboard mode (rotate.cpp sleeps at line 174, `offboard.stop()` is only
called at line 178). -/
theorem C5_hover_after_stop_counterexample :
    (run allLink ["rotate", "udp"] 10).2 = .exited 0 ∧
    (run allLink ["rotate", "udp"] 10).1.count (Event.sleepMs 5000) = 1 ∧
    (run allLink ["rotate", "udp"] 10).1.count Event.offboardStop = 1 ∧
    (run allLink ["rotate", "udp"] 10).1.indexOf (Event.sleepMs 5000) <
      (run allLink ["rotate", "udp"] 10).1.indexOf Event.offboardStop := by
  decide

/-- Claim C5 (amended): in the rotate variant the 5-second hover (the
fixed-duration sleep with no commands issued) takes place before leaving
offboard mode: the sleep happens after the climb and immediately before
the offboard-stop call, with no offboard-stop issued up to that sleep. -/
theorem C5_hover_before_stop (link : Link) (fuel j n : Nat)
    (h0 : link.setVel 0 = true) (h1 : link.offboardStartOk = true)
    (h2 : link.setVel 1 = true) (h3 : link.setVel 2 = true)
    (hlt : ∀ i, i < n → link.position (j + i) < 5)
    (h5 : 5 ≤ link.position (j + n)) (hf : n < fuel) :
    ∃ a tail o,
      rotateClimbPhase link fuel j =
        (a ++ [Event.sleepMs 5000, Event.info "Stopping Offboard...", Event.offboardStop]
          ++ tail, o) ∧
      Event.offboardStop ∉ a ∧ Event.offboardStart ∈ a := by
  have hcl := climbLoop_spec link n fuel j hf hlt h5
  refine ⟨[.setVelocityBody stay, .info "Starting Offboard...", .offboardStart,
    .setVelocityBody rotateClimbSp, .info "Rotating while climbing to 5 m..."] ++
    climbTrace link j n ++ [.setVelocityBody hover, .info "Hovering for 5 seconds..."],
    ?_, ?_, ?_, ?_, by simp⟩
  · exact if link.offboardStopOk then (landPhase link fuel).1
      else [Event.err "Offboard stop failed"]
  · exact if link.offboardStopOk then (landPhase link fuel).2 else .exited 1
  · by_cases hsp : link.offboardStopOk = true
    · simp only [hsp, if_pos]
      simp [rotateClimbPhase, h0, h1, h2, hcl, hoverPhase, h3, stopPhase, hsp,
        List.append_assoc]
    · have hsp2 : link.offboardStopOk = false := by simpa using hsp
      simp only [hsp2, Bool.false_eq_true, if_neg, if_false]
      simp [rotateClimbPhase, h0, h1, h2, hcl, hoverPhase, h3, stopPhase, hsp2,
        List.append_assoc]
  · intro hmem
    simp [List.mem_append] at hmem
    exact absurd hmem (not_mem_of_quiet (climbTrace_quiet link n j) rfl)

/-- Witness for the amended C5 on `allLink`. -/
theorem C5_hover_before_stop_witness :
    ∃ a tail o,
      rotateClimbPhase allLink 6 0 =
        (a ++ [Event.sleepMs 5000, Event.info "Stopping Offboard...", Event.offboardStop]
          ++ tail, o) ∧
      Event.offboardStop ∉ a ∧ Event.offboardStart ∈ a :=
  C5_hover_before_stop allLink 6 0 5 rfl rfl rfl rfl (by decide) (by decide) (by decide)

/-- Claim C3: with altitude readings starting at 0 and increasing by
exactly 0.3 m per poll (health always OK, arm and takeoff succeeding), the
altitude-threshold wait loop exits — final reading 1.2 m, strictly greater
than 1.0 m — on exactly its 5th poll, and the run performs precisely those
five polls between takeoff and the offboard section. -/
theorem C3_altitude_wait_fifth_poll (link : Link) (bin url : String) (fuel : Nat)
    (hp : ∀ k, link.position k = 3 * (k : ℚ) / 10)
    (hh : ∀ k, link.health k = true) (hb : OnlineBase link)
    (ha : link.armOk = true) (ht : link.takeoffOk = true) (hf : 5 ≤ fuel) :
    alt1Loop link fuel 0 =
      ([.pollPosition 0, .info "Current altitude", .sleepMs 200,
        .pollPosition (3/10), .info "Current altitude", .sleepMs 200,
        .pollPosition (3/5), .info "Current altitude", .sleepMs 200,
        .pollPosition (9/10), .info "Current altitude", .sleepMs 200,
        .pollPosition (6/5), .info "Current altitude",
        .info "Altitude above 1.0 m, start rotate + climb."], some 5) ∧
    List.countP Event.isPollPos (alt1Loop link fuel 0).1 = 5 ∧
    run link [bin, url] fuel =
      (setupTr url ++
        [.pollHealth true, .info "Arming...", .arm, .info "Taking off...", .takeoff,
         .info "Waiting until altitude > 1.0 m..."] ++ (alt1Loop link fuel 0).1 ++
        (rotateClimbPhase link fuel 5).1, (rotateClimbPhase link fuel 5).2) := by
  obtain ⟨h1, h2, h3⟩ := hb
  have hlt : ∀ i, i < 4 → link.position (0 + i) ≤ 1 := by
    intro i hi
    rw [hp]
    interval_cases i <;> norm_num
  have habove : 1 < link.position (0 + 4) := by rw [hp]; norm_num
  have hA := alt1Loop_spec link 4 fuel 0 (by omega) hlt habove
  have htr : alt1Trace link 0 4 =
      [.pollPosition 0, .info "Current altitude", .sleepMs 200,
       .pollPosition (3/10), .info "Current altitude", .sleepMs 200,
       .pollPosition (3/5), .info "Current altitude", .sleepMs 200,
       .pollPosition (9/10), .info "Current altitude", .sleepMs 200,
       .pollPosition (6/5), .info "Current altitude",
       .info "Altitude above 1.0 m, start rotate + climb."] := by
    simp [alt1Trace, hp]
    norm_num
  have hA2 : alt1Loop link fuel 0 =
      ([.pollPosition 0, .info "Current altitude", .sleepMs 200,
        .pollPosition (3/10), .info "Current altitude", .sleepMs 200,
        .pollPosition (3/5), .info "Current altitude", .sleepMs 200,
        .pollPosition (9/10), .info "Current altitude", .sleepMs 200,
        .pollPosition (6/5), .info "Current altitude",
        .info "Altitude above 1.0 m, start rotate + climb."], some 5) := by
    rw [hA, htr]
  refine ⟨hA2, by rw [hA2]; rfl, ?_⟩
  obtain ⟨f, rfl⟩ : ∃ f, fuel = f + 1 := ⟨fuel - 1, by omega⟩
  have hHL : healthLoop link (f + 1) 0 = ([.pollHealth true], some ()) := by
    simp [healthLoop, hh 0]
  simp [run, connectedRun, h1, h2, h3, healthPhase, hHL, armPhase, ha, takeoffPhase, ht,
    altWaitPhase, hA2, setupTr, List.append_assoc]

/-- Witness for C3 on the 0.3 m-per-poll link with fuel 5. -/
theorem C3_altitude_wait_fifth_poll_witness :
    alt1Loop stepLink 5 0 =
      ([.pollPosition 0, .info "Current altitude", .sleepMs 200,
        .pollPosition (3/10), .info "Current altitude", .sleepMs 200,
        .pollPosition (3/5), .info "Current altitude", .sleepMs 200,
        .pollPosition (9/10), .info "Current altitude", .sleepMs 200,
        .pollPosition (6/5), .info "Current altitude",
        .info "Altitude above 1.0 m, start rotate + climb."], some 5) ∧
    List.countP Event.isPollPos (alt1Loop stepLink 5 0).1 = 5 ∧
    run stepLink ["rotate", "udp"] 5 =
      (setupTr "udp" ++
        [.pollHealth true, .info "Arming...", .arm, .info "Taking off...", .takeoff,
         .info "Waiting until altitude > 1.0 m..."] ++ (alt1Loop stepLink 5 0).1 ++
        (rotateClimbPhase stepLink 5 5).1, (rotateClimbPhase stepLink 5 5).2) :=
  C3_altitude_wait_fifth_poll stepLink "rotate" "udp" 5 (fun _ => rfl) (fun _ => rfl)
    ⟨rfl, rfl, rfl⟩ rfl rfl (by decide)

/-- Non-quiet events reaching the arm phase are the connect and set-rate
commands. -/
theorem mem_preArm (link : Link) (url : String) (fuel : Nat) (e : Event)
    (h : e ∈ preArm link url fuel) :
    e.quiet = true ∨ e = .connect url ∨ e = .setRate 5 := by
  simp only [preArm, setupTr, List.mem_append, List.mem_cons, List.not_mem_nil, or_false] at h
  rcases h with (h | h | h | h) | h
  · exact .inr (.inl h)
  · subst h; exact Or.inl rfl
  · exact .inr (.inr h)
  · subst h; exact Or.inl rfl
  · exact Or.inl (healthLoop_quiet link fuel 0 e h)

/-- Non-quiet events reaching the first setpoint are connect, set-rate,
arm and takeoff. -/
theorem mem_preStay (link : Link) (url : String) (fuel : Nat) (e : Event)
    (h : e ∈ preStay link url fuel) :
    e.quiet = true ∨ e = .connect url ∨ e = .setRate 5 ∨ e = .arm ∨ e = .takeoff := by
  simp only [preStay, preTakeoff, List.mem_append, List.mem_cons, List.not_mem_nil,
    or_false] at h
  rcases h with ((h | h | h) | h | h | h) | h
  · rcases mem_preArm link url fuel e h with h | h | h
    · exact Or.inl h
    · exact .inr (.inl h)
    · exact .inr (.inr (.inl h))
  · subst h; exact Or.inl rfl
  · exact .inr (.inr (.inr (.inl h)))
  · subst h; exact Or.inl rfl
  · exact .inr (.inr (.inr (.inr h)))
  · subst h; exact Or.inl rfl
  · exact Or.inl (alt1Loop_quiet link fuel 0 e h)

/-- Non-quiet events reaching the hover setpoint additionally include the
stay setpoint, the offboard start and the rotate-climb setpoint. -/
theorem mem_preHover (link : Link) (url : String) (fuel j : Nat) (e : Event)
    (h : e ∈ preHover link url fuel j) :
    e.quiet = true ∨ e = .connect url ∨ e = .setRate 5 ∨ e = .arm ∨ e = .takeoff ∨
      e = .setVelocityBody stay ∨ e = .offboardStart ∨
      e = .setVelocityBody rotateClimbSp := by
  simp only [preHover, preClimb, List.mem_append, List.mem_cons, List.not_mem_nil,
    or_false] at h
  rcases h with (h | h | h | h | h | h) | h
  · rcases mem_preStay link url fuel e h with h | h | h | h | h
    · exact Or.inl h
    · exact .inr (.inl h)
    · exact .inr (.inr (.inl h))
    · exact .inr (.inr (.inr (.inl h)))
    · exact .inr (.inr (.inr (.inr (.inl h))))
  · exact .inr (.inr (.inr (.inr (.inr (.inl h)))))
  · subst h; exact Or.inl rfl
  · exact .inr (.inr (.inr (.inr (.inr (.inr (.inl h))))))
  · exact .inr (.inr (.inr (.inr (.inr (.inr (.inr h))))))
  · subst h; exact Or.inl rfl
  · exact Or.inl (climbLoop_quiet link fuel j e h)

/-- Non-quiet events of a completed run additionally include the hover
setpoint, the offboard stop and the land command. -/
theorem mem_preDone (link : Link) (url : String) (fuel j : Nat) (e : Event)
    (h : e ∈ preDone link url fuel j) :
    e.quiet = true ∨ e = .connect url ∨ e = .setRate 5 ∨ e = .arm ∨ e = .takeoff ∨
      e = .setVelocityBody stay ∨ e = .offboardStart ∨
      e = .setVelocityBody rotateClimbSp ∨ e = .setVelocityBody hover ∨
      e = .offboardStop ∨ e = .land := by
  rw [preDone, preLand, preStop] at h
  rcases List.mem_append.mp h with h | h
  · rcases List.mem_append.mp h with h | h
    · rcases List.mem_append.mp h with h | h
      · rcases List.mem_append.mp h with h | h
        · rcases mem_preHover link url fuel j e h with h | h | h | h | h | h | h | h
          · exact Or.inl h
          · exact .inr (.inl h)
          · exact .inr (.inr (.inl h))
          · exact .inr (.inr (.inr (.inl h)))
          · exact .inr (.inr (.inr (.inr (.inl h))))
          · exact .inr (.inr (.inr (.inr (.inr (.inl h)))))
          · exact .inr (.inr (.inr (.inr (.inr (.inr (.inl h))))))
          · exact .inr (.inr (.inr (.inr (.inr (.inr (.inr (.inl h)))))))
        · simp only [List.mem_cons, List.not_mem_nil, or_false] at h
          rcases h with rfl | rfl | rfl
          · exact .inr (.inr (.inr (.inr (.inr (.inr (.inr (.inr (.inl rfl))))))))
          · exact Or.inl rfl
          · exact Or.inl rfl
      · simp only [List.mem_cons, List.not_mem_nil, or_false] at h
        rcases h with rfl | rfl
        · exact Or.inl rfl
        · exact .inr (.inr (.inr (.inr (.inr (.inr (.inr (.inr (.inr (.inl rfl)))))))))
    · simp only [List.mem_cons, List.not_mem_nil, or_false] at h
      rcases h with rfl | rfl
      · exact Or.inl rfl
      · exact .inr (.inr (.inr (.inr (.inr (.inr (.inr (.inr (.inr (.inr rfl)))))))))
  · exact Or.inl (landLoop_quiet link fuel 0 e h)

theorem err_not_mem_preArm (link : Link) (url : String) (fuel : Nat) (s : String) :
    Event.err s ∉ preArm link url fuel := by
  intro hmem
  rcases mem_preArm link url fuel _ hmem with h | h | h <;>
    simp [Event.quiet, Event.isCmd, Event.isErr] at h

theorem err_not_mem_preStay (link : Link) (url : String) (fuel : Nat) (s : String) :
    Event.err s ∉ preStay link url fuel := by
  intro hmem
  rcases mem_preStay link url fuel _ hmem with h | h | h | h | h <;>
    simp [Event.quiet, Event.isCmd, Event.isErr] at h

theorem err_not_mem_preHover (link : Link) (url : String) (fuel j : Nat) (s : String) :
    Event.err s ∉ preHover link url fuel j := by
  intro hmem
  rcases mem_preHover link url fuel j _ hmem with h | h | h | h | h | h | h | h <;>
    simp [Event.quiet, Event.isCmd, Event.isErr] at h

theorem err_not_mem_preDone (link : Link) (url : String) (fuel j : Nat) (s : String) :
    Event.err s ∉ preDone link url fuel j := by
  intro hmem
  rcases mem_preDone link url fuel j _ hmem with h | h | h | h | h | h | h | h | h | h | h <;>
    simp [Event.quiet, Event.isCmd, Event.isErr] at h

theorem countP_setVel_preStay (link : Link) (url : String) (fuel : Nat) :
    List.countP Event.isSetVel (preStay link url fuel) = 0 := by
  refine List.countP_eq_zero.mpr fun e he => ?_
  rcases mem_preStay link url fuel e he with h | h | h | h | h
  · simp [(quiet_spec h).2.2]
  all_goals (subst h; simp [Event.isSetVel])

theorem countP_setVel_preHover (link : Link) (url : String) (fuel j : Nat) :
    List.countP Event.isSetVel (preHover link url fuel j) = 2 := by
  have h1 := countP_setVel_preStay link url fuel
  have h2 := countP_setVel_eq_zero (climbLoop_quiet link fuel j)
  simp [preHover, preClimb, List.countP_append, h1, h2, List.countP_cons, Event.isSetVel]

theorem countP_setVel_preDone (link : Link) (url : String) (fuel j : Nat) :
    List.countP Event.isSetVel (preDone link url fuel j) = 3 := by
  have h1 := countP_setVel_preHover link url fuel j
  have h2 := countP_setVel_eq_zero (landLoop_quiet link fuel 0)
  simp [preDone, preLand, preStop, List.countP_append, h1, h2, List.countP_cons,
    Event.isSetVel]

theorem rcSp_not_mem_preStay (link : Link) (url : String) (fuel : Nat) :
    Event.setVelocityBody rotateClimbSp ∉ preStay link url fuel := by
  intro hmem
  rcases mem_preStay link url fuel _ hmem with h | h | h | h | h <;>
    simp [Event.quiet, Event.isCmd, Event.isErr] at h

theorem stay_ne_rcSp : stay ≠ rotateClimbSp := by
  intro h
  have h2 : (0 : ℚ) = -(1/2) := congrArg VelocityBodyYawspeed.down_m_s h
  norm_num at h2

theorem hover_ne_rcSp : hover ≠ rotateClimbSp := by
  intro h
  have h2 : (0 : ℚ) = -(1/2) := congrArg VelocityBodyYawspeed.down_m_s h
  norm_num at h2

theorem count_rcSp_preHover (link : Link) (url : String) (fuel j : Nat) :
    List.count (Event.setVelocityBody rotateClimbSp) (preHover link url fuel j) = 1 := by
  have h1 := List.count_eq_zero.mpr (rcSp_not_mem_preStay link url fuel)
  have h2 := List.count_eq_zero.mpr
    (not_mem_of_quiet (climbLoop_quiet link fuel j) rfl :
      Event.setVelocityBody rotateClimbSp ∉ (climbLoop link fuel j).1)
  simp [preHover, preClimb, List.count_append, h1, h2, List.count_cons,
    stay_ne_rcSp, hover_ne_rcSp]

theorem count_rcSp_preDone (link : Link) (url : String) (fuel j : Nat) :
    List.count (Event.setVelocityBody rotateClimbSp) (preDone link url fuel j) = 1 := by
  have h1 := count_rcSp_preHover link url fuel j
  have h2 := List.count_eq_zero.mpr
    (not_mem_of_quiet (landLoop_quiet link fuel 0) rfl :
      Event.setVelocityBody rotateClimbSp ∉ (landLoop link fuel 0).1)
  simp [preDone, preLand, preStop, List.count_append, h1, h2, List.count_cons,
    hover_ne_rcSp]

theorem stop_not_mem_preArm (link : Link) (url : String) (fuel : Nat) :
    Event.offboardStop ∉ preArm link url fuel := by
  intro h
  rcases mem_preArm link url fuel _ h with h | h | h <;>
    simp [Event.quiet, Event.isCmd, Event.isErr] at h

theorem stop_not_mem_preStay (link : Link) (url : String) (fuel : Nat) :
    Event.offboardStop ∉ preStay link url fuel := by
  intro h
  rcases mem_preStay link url fuel _ h with h | h | h | h | h <;>
    simp [Event.quiet, Event.isCmd, Event.isErr] at h

theorem stop_not_mem_preHover (link : Link) (url : String) (fuel j : Nat) :
    Event.offboardStop ∉ preHover link url fuel j := by
  intro h
  rcases mem_preHover link url fuel j _ h with h | h | h | h | h | h | h | h <;>
    simp [Event.quiet, Event.isCmd, Event.isErr] at h

theorem setVel_not_mem_preArm (link : Link) (url : String) (fuel : Nat)
    (sp : VelocityBodyYawspeed) : Event.setVelocityBody sp ∉ preArm link url fuel := by
  intro h
  rcases mem_preArm link url fuel _ h with h | h | h <;>
    simp [Event.quiet, Event.isCmd, Event.isErr] at h

theorem setVel_not_mem_preStay (link : Link) (url : String) (fuel : Nat)
    (sp : VelocityBodyYawspeed) : Event.setVelocityBody sp ∉ preStay link url fuel := by
  intro h
  rcases mem_preStay link url fuel _ h with h | h | h | h | h <;>
    simp [Event.quiet, Event.isCmd, Event.isErr] at h

theorem setVel_mem_preHover_values (link : Link) (url : String) (fuel j : Nat)
    (sp : VelocityBodyYawspeed) (h : Event.setVelocityBody sp ∈ preHover link url fuel j) :
    sp = stay ∨ sp = rotateClimbSp := by
  rcases mem_preHover link url fuel j _ h with h | h | h | h | h | h | h | h
  · simp [Event.quiet, Event.isCmd] at h
  · simp at h
  · simp at h
  · simp at h
  · simp at h
  · simp only [Event.setVelocityBody.injEq] at h
    exact Or.inl h
  · simp at h
  · simp only [Event.setVelocityBody.injEq] at h
    exact Or.inr h

theorem setVel_mem_preDone_values (link : Link) (url : String) (fuel j : Nat)
    (sp : VelocityBodyYawspeed) (h : Event.setVelocityBody sp ∈ preDone link url fuel j) :
    sp = stay ∨ sp = rotateClimbSp ∨ sp = hover := by
  rcases mem_preDone link url fuel j _ h with h | h | h | h | h | h | h | h | h | h | h
  · simp [Event.quiet, Event.isCmd] at h
  · simp at h
  · simp at h
  · simp at h
  · simp at h
  · simp only [Event.setVelocityBody.injEq] at h
    exact Or.inl h
  · simp at h
  · simp only [Event.setVelocityBody.injEq] at h
    exact Or.inr (Or.inl h)
  · simp only [Event.setVelocityBody.injEq] at h
    exact Or.inr (Or.inr h)
  · simp at h
  · simp at h

theorem countP_setVel_preArm (link : Link) (url : String) (fuel : Nat) :
    List.countP Event.isSetVel (preArm link url fuel) = 0 := by
  refine List.countP_eq_zero.mpr fun e he => ?_
  rcases mem_preArm link url fuel e he with h | h | h
  · simp [(quiet_spec h).2.2]
  all_goals (subst h; simp [Event.isSetVel])

/-- Offboard stop is only reached in runs where offboard start previously
succeeded, and the stop event always occurs after the start event in the
trace. -/
theorem stop_after_start (link : Link) (url : String) (fuel : Nat)
    (hmem : Event.offboardStop ∈ (connectedRun link url fuel).1) :
    link.offboardStartOk = true ∧
    ∃ a b, (connectedRun link url fuel).1 = a ++ Event.offboardStart :: b ∧
      Event.offboardStop ∈ b := by
  rcases connectedRun_cases link url fuel with
    ⟨hc, he⟩ | ⟨hc, hd, he⟩ | ⟨hc, hd, hrk, he⟩ | ⟨hb, hH, he⟩ |
    ⟨hra, ha, he⟩ | ⟨hra, ha, ht, he⟩ | ⟨hra, ha, ht, hA, he⟩ |
    ⟨j, hal, hs0, he⟩ | ⟨j, hal, hs0, hst, he⟩ | ⟨j, hal, hs0, hst, hs1, he⟩ |
    ⟨j, hal, hs0, hst, hs1, hC, he⟩ |
    ⟨j, hrh, hs2, he⟩ | ⟨j, hrh, hs2, hsp, he⟩ | ⟨j, hrh, hs2, hsp, hl, he⟩ |
    ⟨j, hrh, hs2, hsp, hl, hL, he⟩ | ⟨j, hrh, hs2, hsp, hl, hL, he⟩
  · rw [he] at hmem; simp at hmem
  · rw [he] at hmem; simp at hmem
  · rw [he] at hmem; simp at hmem
  · rw [he] at hmem
    rcases List.mem_append.mp hmem with h | h
    · simp [setupTr] at h
    · exact absurd h (not_mem_of_quiet (healthLoop_quiet link fuel 0) rfl)
  · rw [he] at hmem
    rcases List.mem_append.mp hmem with h | h
    · exact absurd h (stop_not_mem_preArm link url fuel)
    · simp at h
  · rw [he] at hmem
    rcases List.mem_append.mp hmem with h | h
    · rcases List.mem_append.mp h with h | h
      · exact absurd h (stop_not_mem_preArm link url fuel)
      · simp at h
    · simp at h
  · rw [he] at hmem
    exact absurd hmem (stop_not_mem_preStay link url fuel)
  · rw [he] at hmem
    rcases List.mem_append.mp hmem with h | h
    · exact absurd h (stop_not_mem_preStay link url fuel)
    · simp at h
  · rw [he] at hmem
    rcases List.mem_append.mp hmem with h | h
    · exact absurd h (stop_not_mem_preStay link url fuel)
    · simp at h
  · rw [he] at hmem
    rcases List.mem_append.mp hmem with h | h
    · exact absurd h (stop_not_mem_preStay link url fuel)
    · simp at h
  · rw [he] at hmem
    exact absurd hmem (stop_not_mem_preHover link url fuel j)
  · rw [he] at hmem
    rcases List.mem_append.mp hmem with h | h
    · exact absurd h (stop_not_mem_preHover link url fuel j)
    · simp at h
  · refine ⟨hrh.2.2.1, preStay link url fuel ++
      [Event.setVelocityBody stay, Event.info "Starting Offboard..."],
      Event.setVelocityBody rotateClimbSp :: Event.info "Rotating while climbing to 5 m..." ::
        ((climbLoop link fuel j).1 ++
          [Event.setVelocityBody hover, Event.info "Hovering for 5 seconds...",
           Event.sleepMs 5000, Event.info "Stopping Offboard...", Event.offboardStop,
           Event.err "Offboard stop failed"]), ?_, by simp⟩
    rw [he]
    simp [preStop, preHover, preClimb, List.append_assoc]
  · refine ⟨hrh.2.2.1, preStay link url fuel ++
      [Event.setVelocityBody stay, Event.info "Starting Offboard..."],
      Event.setVelocityBody rotateClimbSp :: Event.info "Rotating while climbing to 5 m..." ::
        ((climbLoop link fuel j).1 ++
          [Event.setVelocityBody hover, Event.info "Hovering for 5 seconds...",
           Event.sleepMs 5000, Event.info "Stopping Offboard...", Event.offboardStop,
           Event.info "Landing...", Event.land, Event.err "Land failed"]), ?_, by simp⟩
    rw [he]
    simp [preLand, preStop, preHover, preClimb, List.append_assoc]
  · refine ⟨hrh.2.2.1, preStay link url fuel ++
      [Event.setVelocityBody stay, Event.info "Starting Offboard..."],
      Event.setVelocityBody rotateClimbSp :: Event.info "Rotating while climbing to 5 m..." ::
        ((climbLoop link fuel j).1 ++
          ([Event.setVelocityBody hover, Event.info "Hovering for 5 seconds...",
            Event.sleepMs 5000, Event.info "Stopping Offboard...", Event.offboardStop,
            Event.info "Landing...", Event.land] ++ (landLoop link fuel 0).1)), ?_, by simp⟩
    rw [he]
    simp [preDone, preLand, preStop, preHover, preClimb, List.append_assoc]
  · refine ⟨hrh.2.2.1, preStay link url fuel ++
      [Event.setVelocityBody stay, Event.info "Starting Offboard..."],
      Event.setVelocityBody rotateClimbSp :: Event.info "Rotating while climbing to 5 m..." ::
        ((climbLoop link fuel j).1 ++
          ([Event.setVelocityBody hover, Event.info "Hovering for 5 seconds...",
            Event.sleepMs 5000, Event.info "Stopping Offboard...", Event.offboardStop,
            Event.info "Landing...", Event.land] ++ (landLoop link fuel 0).1 ++
            [Event.info "Landed. Finished."])), ?_, by simp⟩
    rw [he]
    simp [preDone, preLand, preStop, preHover, preClimb, List.append_assoc]

/-- Every velocity setpoint ever sent is the `stay`, `rotate_climb` or
`hover` setpoint. -/
theorem setVel_values (link : Link) (url : String) (fuel : Nat)
    (sp : VelocityBodyYawspeed)
    (hmem : Event.setVelocityBody sp ∈ (connectedRun link url fuel).1) :
    sp = stay ∨ sp = rotateClimbSp ∨ sp = hover := by
  rcases connectedRun_cases link url fuel with
    ⟨hc, he⟩ | ⟨hc, hd, he⟩ | ⟨hc, hd, hrk, he⟩ | ⟨hb, hH, he⟩ |
    ⟨hra, ha, he⟩ | ⟨hra, ha, ht, he⟩ | ⟨hra, ha, ht, hA, he⟩ |
    ⟨j, hal, hs0, he⟩ | ⟨j, hal, hs0, hst, he⟩ | ⟨j, hal, hs0, hst, hs1, he⟩ |
    ⟨j, hal, hs0, hst, hs1, hC, he⟩ |
    ⟨j, hrh, hs2, he⟩ | ⟨j, hrh, hs2, hsp, he⟩ | ⟨j, hrh, hs2, hsp, hl, he⟩ |
    ⟨j, hrh, hs2, hsp, hl, hL, he⟩ | ⟨j, hrh, hs2, hsp, hl, hL, he⟩
  · rw [he] at hmem; simp at hmem
  · rw [he] at hmem; simp at hmem
  · rw [he] at hmem; simp at hmem
  · rw [he] at hmem
    rcases List.mem_append.mp hmem with h | h
    · simp [setupTr] at h
    · exact absurd h (not_mem_of_quiet (healthLoop_quiet link fuel 0) rfl)
  · rw [he] at hmem
    rcases List.mem_append.mp hmem with h | h
    · exact absurd h (setVel_not_mem_preArm link url fuel sp)
    · simp at h
  · rw [he] at hmem
    rcases List.mem_append.mp hmem with h | h
    · rcases List.mem_append.mp h with h | h
      · exact absurd h (setVel_not_mem_preArm link url fuel sp)
      · simp at h
    · simp at h
  · rw [he] at hmem
    exact absurd hmem (setVel_not_mem_preStay link url fuel sp)
  · rw [he] at hmem
    rcases List.mem_append.mp hmem with h | h
    · exact absurd h (setVel_not_mem_preStay link url fuel sp)
    · simp at h
      exact Or.inl h
  · rw [he] at hmem
    rcases List.mem_append.mp hmem with h | h
    · exact absurd h (setVel_not_mem_preStay link url fuel sp)
    · simp at h
      exact Or.inl h
  · rw [he] at hmem
    rcases List.mem_append.mp hmem with h | h
    · exact absurd h (setVel_not_mem_preStay link url fuel sp)
    · simp at h
      rcases h with h | h
      · exact Or.inl h
      · exact .inr (.inl h)
  · rw [he] at hmem
    exact (setVel_mem_preHover_values link url fuel j sp hmem).imp id Or.inl
  · rw [he] at hmem
    rcases List.mem_append.mp hmem with h | h
    · exact (setVel_mem_preHover_values link url fuel j sp h).imp id Or.inl
    · simp at h
      exact Or.inr (Or.inr h)
  · rw [he] at hmem
    rcases List.mem_append.mp hmem with h | h
    · rw [preStop] at h
      rcases List.mem_append.mp h with h | h
      · exact (setVel_mem_preHover_values link url fuel j sp h).imp id Or.inl
      · simp at h
        exact Or.inr (Or.inr h)
    · simp at h
  · rw [he] at hmem
    rcases List.mem_append.mp hmem with h | h
    · rw [preLand, preStop] at h
      rcases List.mem_append.mp h with h | h
      · rcases List.mem_append.mp h with h | h
        · exact (setVel_mem_preHover_values link url fuel j sp h).imp id Or.inl
        · simp at h
          exact Or.inr (Or.inr h)
      · simp at h
    · simp at h
  · rw [he] at hmem
    exact setVel_mem_preDone_values link url fuel j sp hmem
  · rw [he] at hmem
    rcases List.mem_append.mp hmem with h | h
    · exact setVel_mem_preDone_values link url fuel j sp h
    · simp at h

/-- At most three velocity setpoints are ever sent in a run. -/
theorem countP_setVel_le (link : Link) (url : String) (fuel : Nat) :
    List.countP Event.isSetVel (connectedRun link url fuel).1 ≤ 3 := by
  rcases connectedRun_cases link url fuel with
    ⟨hc, he⟩ | ⟨hc, hd, he⟩ | ⟨hc, hd, hrk, he⟩ | ⟨hb, hH, he⟩ |
    ⟨hra, ha, he⟩ | ⟨hra, ha, ht, he⟩ | ⟨hra, ha, ht, hA, he⟩ |
    ⟨j, hal, hs0, he⟩ | ⟨j, hal, hs0, hst, he⟩ | ⟨j, hal, hs0, hst, hs1, he⟩ |
    ⟨j, hal, hs0, hst, hs1, hC, he⟩ |
    ⟨j, hrh, hs2, he⟩ | ⟨j, hrh, hs2, hsp, he⟩ | ⟨j, hrh, hs2, hsp, hl, he⟩ |
    ⟨j, hrh, hs2, hsp, hl, hL, he⟩ | ⟨j, hrh, hs2, hsp, hl, hL, he⟩
  · rw [he]; simp [List.countP_cons, Event.isSetVel]
  · rw [he]; simp [List.countP_cons, Event.isSetVel]
  · rw [he]; simp [List.countP_cons, Event.isSetVel]
  · rw [he]
    simp [List.countP_append, setupTr, List.countP_cons, Event.isSetVel,
      countP_setVel_eq_zero (healthLoop_quiet link fuel 0)]
  · rw [he]
    simp [List.countP_append, countP_setVel_preArm, List.countP_cons, Event.isSetVel]
  · rw [he]
    simp [preTakeoff, List.countP_append, countP_setVel_preArm, List.countP_cons,
      Event.isSetVel]
  · rw [he]; simp [countP_setVel_preStay]
  · rw [he]
    simp [List.countP_append, countP_setVel_preStay, List.countP_cons, Event.isSetVel]
  · rw [he]
    simp [List.countP_append, countP_setVel_preStay, List.countP_cons, Event.isSetVel]
  · rw [he]
    simp [List.countP_append, countP_setVel_preStay, List.countP_cons, Event.isSetVel]
  · rw [he]; simp [countP_setVel_preHover]
  · rw [he]
    simp [List.countP_append, countP_setVel_preHover, List.countP_cons, Event.isSetVel]
  · rw [he]
    simp [preStop, List.countP_append, countP_setVel_preHover, List.countP_cons,
      Event.isSetVel]
  · rw [he]
    simp [preLand, preStop, List.countP_append, countP_setVel_preHover, List.countP_cons,
      Event.isSetVel]
  · rw [he]; simp [countP_setVel_preDone]
  · rw [he]
    simp [List.countP_append, countP_setVel_preDone, List.countP_cons, Event.isSetVel]

/-- The rotate-climb setpoint is sent at most once in a run. -/
theorem count_rcSp_le (link : Link) (url : String) (fuel : Nat) :
    List.count (Event.setVelocityBody rotateClimbSp) (connectedRun link url fuel).1 ≤ 1 := by
  have hH0 : ∀ f k, List.count (Event.setVelocityBody rotateClimbSp)
      (healthLoop link f k).1 = 0 := fun f k => List.count_eq_zero.mpr
    (not_mem_of_quiet (healthLoop_quiet link f k) rfl :
      Event.setVelocityBody rotateClimbSp ∉ (healthLoop link f k).1)
  have hPA : ∀ f, List.count (Event.setVelocityBody rotateClimbSp)
      (preArm link url f) = 0 := fun f => List.count_eq_zero.mpr
    (setVel_not_mem_preArm link url f rotateClimbSp)
  have hPS : ∀ f, List.count (Event.setVelocityBody rotateClimbSp)
      (preStay link url f) = 0 := fun f => List.count_eq_zero.mpr
    (rcSp_not_mem_preStay link url f)
  have hLL : List.count (Event.setVelocityBody rotateClimbSp) (landLoop link fuel 0).1 = 0 :=
    List.count_eq_zero.mpr
      (not_mem_of_quiet (landLoop_quiet link fuel 0) rfl :
        Event.setVelocityBody rotateClimbSp ∉ (landLoop link fuel 0).1)
  rcases connectedRun_cases link url fuel with
    ⟨hc, he⟩ | ⟨hc, hd, he⟩ | ⟨hc, hd, hrk, he⟩ | ⟨hb, hH, he⟩ |
    ⟨hra, ha, he⟩ | ⟨hra, ha, ht, he⟩ | ⟨hra, ha, ht, hA, he⟩ |
    ⟨j, hal, hs0, he⟩ | ⟨j, hal, hs0, hst, he⟩ | ⟨j, hal, hs0, hst, hs1, he⟩ |
    ⟨j, hal, hs0, hst, hs1, hC, he⟩ |
    ⟨j, hrh, hs2, he⟩ | ⟨j, hrh, hs2, hsp, he⟩ | ⟨j, hrh, hs2, hsp, hl, he⟩ |
    ⟨j, hrh, hs2, hsp, hl, hL, he⟩ | ⟨j, hrh, hs2, hsp, hl, hL, he⟩
  · rw [he]; simp [List.count_cons]
  · rw [he]; simp [List.count_cons]
  · rw [he]; simp [List.count_cons]
  · rw [he]
    simp [List.count_append, setupTr, List.count_cons, hH0]
  · rw [he]
    simp [List.count_append, hPA, List.count_cons]
  · rw [he]
    simp [preTakeoff, List.count_append, hPA, List.count_cons]
  · rw [he]; simp [hPS]
  · rw [he]
    simp [List.count_append, hPS, List.count_cons, stay_ne_rcSp]
  · rw [he]
    simp [List.count_append, hPS, List.count_cons, stay_ne_rcSp]
  · rw [he]
    simp [List.count_append, hPS, List.count_cons, stay_ne_rcSp]
  · rw [he]; simp [count_rcSp_preHover]
  · rw [he]
    simp [List.count_append, count_rcSp_preHover, List.count_cons, hover_ne_rcSp]
  · rw [he]
    simp [preStop, List.count_append, count_rcSp_preHover, List.count_cons, hover_ne_rcSp]
  · rw [he]
    simp [preLand, preStop, List.count_append, count_rcSp_preHover, List.count_cons,
      hover_ne_rcSp]
  · rw [he]; simp [count_rcSp_preDone]
  · rw [he]
    simp [List.count_append, count_rcSp_preDone, List.count_cons]

/-- Claim C10: offboard mode is well-bracketed — offboard-stop is called
only in runs where offboard-start previously succeeded (and the stop event
comes after the start event); every velocity setpoint other than the
single rotate+climb setpoint (down -0.5 m/s, yaw 45 deg/s) is the all-zero
neutral setpoint; at most three setpoints, and at most one rotate-climb
setpoint, are ever sent per run. -/
theorem C10_offboard_bracketing (link : Link) (argv : List String) (fuel : Nat) :
    (Event.offboardStop ∈ (run link argv fuel).1 →
      link.offboardStartOk = true ∧
      ∃ a b, (run link argv fuel).1 = a ++ Event.offboardStart :: b ∧
        Event.offboardStop ∈ b) ∧
    (∀ sp, Event.setVelocityBody sp ∈ (run link argv fuel).1 →
      sp = ⟨0, 0, 0, 0⟩ ∨ sp = rotateClimbSp) ∧
    List.countP Event.isSetVel (run link argv fuel).1 ≤ 3 ∧
    List.count (Event.setVelocityBody rotateClimbSp) (run link argv fuel).1 ≤ 1 := by
  rcases argv with _ | ⟨a, _ | ⟨b, _ | ⟨c, rest⟩⟩⟩
  · exact ⟨fun h => absurd h (by simp [run]), fun sp h => absurd h (by simp [run]),
      by simp [run, List.countP_cons, Event.isSetVel], by simp [run, List.count_cons]⟩
  · exact ⟨fun h => absurd h (by simp [run]), fun sp h => absurd h (by simp [run]),
      by simp [run, List.countP_cons, Event.isSetVel], by simp [run, List.count_cons]⟩
  · have hc : run link [a, b] fuel = connectedRun link b fuel := rfl
    rw [hc]
    refine ⟨fun hm => stop_after_start link b fuel hm, fun sp hm => ?_,
      countP_setVel_le link b fuel, count_rcSp_le link b fuel⟩
    rcases setVel_values link b fuel sp hm with h | h | h
    · exact Or.inl h
    · exact Or.inr h
    · exact Or.inl h
  · exact ⟨fun h => absurd h (by simp [run]), fun sp h => absurd h (by simp [run]),
      by simp [run, List.countP_cons, Event.isSetVel], by simp [run, List.count_cons]⟩

/-- Witness for C10 evaluated at a fully successful concrete run. -/
theorem C10_offboard_bracketing_witness :
    (Event.offboardStop ∈ (run allLink ["rotate", "udp"] 10).1 →
      allLink.offboardStartOk = true ∧
      ∃ a b, (run allLink ["rotate", "udp"] 10).1 = a ++ Event.offboardStart :: b ∧
        Event.offboardStop ∈ b) ∧
    (∀ sp, Event.setVelocityBody sp ∈ (run allLink ["rotate", "udp"] 10).1 →
      sp = ⟨0, 0, 0, 0⟩ ∨ sp = rotateClimbSp) ∧
    List.countP Event.isSetVel (run allLink ["rotate", "udp"] 10).1 ≤ 3 ∧
    List.count (Event.setVelocityBody rotateClimbSp)
      (run allLink ["rotate", "udp"] 10).1 ≤ 1 :=
  C10_offboard_bracketing allLink ["rotate", "udp"] 10

/-- A connected run only ever exits with code 0 or 1. -/
theorem connectedRun_code (link : Link) (url : String) (fuel : Nat) :
    ∀ c, (connectedRun link url fuel).2 = .exited c → c = 0 ∨ c = 1 := by
  intro c hc
  rcases connectedRun_cases link url fuel with
    ⟨hc1, he⟩ | ⟨hc1, hd, he⟩ | ⟨hc1, hd, hrk, he⟩ | ⟨hb, hH, he⟩ |
    ⟨hra, ha, he⟩ | ⟨hra, ha, ht, he⟩ | ⟨hra, ha, ht, hA, he⟩ |
    ⟨j, hal, hs0, he⟩ | ⟨j, hal, hs0, hst, he⟩ | ⟨j, hal, hs0, hst, hs1, he⟩ |
    ⟨j, hal, hs0, hst, hs1, hC, he⟩ |
    ⟨j, hrh, hs2, he⟩ | ⟨j, hrh, hs2, hsp, he⟩ | ⟨j, hrh, hs2, hsp, hl, he⟩ |
    ⟨j, hrh, hs2, hsp, hl, hL, he⟩ | ⟨j, hrh, hs2, hsp, hl, hL, he⟩ <;>
    rw [he] at hc <;> simp at hc
  · exact Or.inr hc.symm
  · exact Or.inr hc.symm
  · exact Or.inr hc.symm
  · exact Or.inr hc.symm
  · exact Or.inr hc.symm
  · exact Or.inr hc.symm
  · exact Or.inr hc.symm
  · exact Or.inr hc.symm
  · exact Or.inr hc.symm
  · exact Or.inr hc.symm
  · exact Or.inr hc.symm
  · exact Or.inl hc.symm

/-- A connected run exits with code 0 exactly when every command succeeded
and every polling loop exited. -/
theorem connectedRun_exit0_iff (link : Link) (url : String) (fuel : Nat) :
    (connectedRun link url fuel).2 = .exited 0 ↔ SuccessRun link fuel := by
  constructor
  · intro h0
    rcases connectedRun_cases link url fuel with
      ⟨hc1, he⟩ | ⟨hc1, hd, he⟩ | ⟨hc1, hd, hrk, he⟩ | ⟨hb, hH, he⟩ |
      ⟨hra, ha, he⟩ | ⟨hra, ha, ht, he⟩ | ⟨hra, ha, ht, hA, he⟩ |
      ⟨j, hal, hs0, he⟩ | ⟨j, hal, hs0, hst, he⟩ | ⟨j, hal, hs0, hst, hs1, he⟩ |
      ⟨j, hal, hs0, hst, hs1, hC, he⟩ |
      ⟨j, hrh, hs2, he⟩ | ⟨j, hrh, hs2, hsp, he⟩ | ⟨j, hrh, hs2, hsp, hl, he⟩ |
      ⟨j, hrh, hs2, hsp, hl, hL, he⟩ | ⟨j, hrh, hs2, hsp, hl, hL, he⟩ <;>
      rw [he] at h0 <;> simp at h0
    exact ⟨hrh.1.1.1, hrh.1.1.2, hrh.1.2.1, hrh.1.2.2.1, hrh.2.1, hrh.2.2.1,
      hrh.2.2.2.1, hs2, hsp, hl, ⟨j, hrh.1.2.2.2, hrh.2.2.2.2⟩, hL⟩
  · intro hS
    obtain ⟨⟨hsc, hsd, hsr⟩, hsH, hsa, hst0, hss0, hsst, hss1, hss2, hssp, hsl,
      ⟨j0, hj0, k0, hk0⟩, hsL⟩ := hS
    rcases connectedRun_cases link url fuel with
      ⟨hc1, he⟩ | ⟨hc1, hd, he⟩ | ⟨hc1, hd, hrk, he⟩ | ⟨hb, hH, he⟩ |
      ⟨hra, ha, he⟩ | ⟨hra, ha, ht, he⟩ | ⟨hra, ha, ht, hA, he⟩ |
      ⟨j, hal, hs0, he⟩ | ⟨j, hal, hs0, hst, he⟩ | ⟨j, hal, hs0, hst, hs1, he⟩ |
      ⟨j, hal, hs0, hst, hs1, hC, he⟩ |
      ⟨j, hrh, hs2, he⟩ | ⟨j, hrh, hs2, hsp, he⟩ | ⟨j, hrh, hs2, hsp, hl, he⟩ |
      ⟨j, hrh, hs2, hsp, hl, hL, he⟩ | ⟨j, hrh, hs2, hsp, hl, hL, he⟩
    · rw [hc1] at hsc; simp at hsc
    · rw [hd] at hsd; simp at hsd
    · rw [hrk] at hsr; simp at hsr
    · rw [hH] at hsH; simp at hsH
    · rw [ha] at hsa; simp at hsa
    · rw [ht] at hst0; simp at hst0
    · rw [hA] at hj0; simp at hj0
    · rw [hs0] at hss0; simp at hss0
    · rw [hst] at hsst; simp at hsst
    · rw [hs1] at hss1; simp at hss1
    · have hjj : j0 = j := by
        have h2 := hal.2.2.2
        rw [h2] at hj0
        exact (Option.some.inj hj0).symm
      subst hjj
      rw [hC] at hk0; simp at hk0
    · rw [hs2] at hss2; simp at hss2
    · rw [hsp] at hssp; simp at hssp
    · rw [hl] at hsl; simp at hsl
    · rw [hL] at hsL; simp at hsL
    · rw [he]

/-- Claim C8: the process exits with status 0 exactly on full successful
completion of the sequence; on any connection failure, discovery timeout,
bad arity or command rejection it exits with status 1; no exit status
other than 0 and 1 is possible (a run that never satisfies a polled
condition does not exit at all). -/
theorem C8_exit_codes (link : Link) (argv : List String) (fuel : Nat) :
    (∀ c, (run link argv fuel).2 = .exited c → c = 0 ∨ c = 1) ∧
    ((run link argv fuel).2 = .exited 0 ↔
      (∃ bin url, argv = [bin, url]) ∧ SuccessRun link fuel) := by
  rcases argv with _ | ⟨a, _ | ⟨b, _ | ⟨c0, rest⟩⟩⟩
  · refine ⟨fun c hc => ?_, ?_⟩
    · simp [run] at hc
      exact Or.inr hc.symm
    · constructor
      · intro h; simp [run] at h
      · rintro ⟨⟨bin, url, h⟩, -⟩; simp at h
  · refine ⟨fun c hc => ?_, ?_⟩
    · simp [run] at hc
      exact Or.inr hc.symm
    · constructor
      · intro h; simp [run] at h
      · rintro ⟨⟨bin, url, h⟩, -⟩; simp at h
  · have hcr : run link [a, b] fuel = connectedRun link b fuel := rfl
    rw [hcr]
    refine ⟨connectedRun_code link b fuel, ?_⟩
    rw [connectedRun_exit0_iff]
    constructor
    · intro hS
      exact ⟨⟨a, b, rfl⟩, hS⟩
    · rintro ⟨-, hS⟩
      exact hS
  · refine ⟨fun c hc => ?_, ?_⟩
    · simp [run] at hc
      exact Or.inr hc.symm
    · constructor
      · intro h; simp [run] at h
      · rintro ⟨⟨bin, url, h⟩, h2⟩; simp at h

/-- Witness for C8 at a fully successful concrete run. -/
theorem C8_exit_codes_witness :
    (∀ c, (run allLink ["rotate", "udp"] 10).2 = .exited c → c = 0 ∨ c = 1) ∧
    ((run allLink ["rotate", "udp"] 10).2 = .exited 0 ↔
      (∃ bin url, (["rotate", "udp"] : List String) = [bin, url]) ∧
        SuccessRun allLink 10) :=
  C8_exit_codes allLink ["rotate", "udp"] 10

theorem err_not_mem_preStop (link : Link) (url : String) (fuel j : Nat) (s : String) :
    Event.err s ∉ preStop link url fuel j := by
  intro h
  rw [preStop] at h
  rcases List.mem_append.mp h with h | h
  · exact err_not_mem_preHover link url fuel j s h
  · simp at h

theorem err_not_mem_preLand (link : Link) (url : String) (fuel j : Nat) (s : String) :
    Event.err s ∉ preLand link url fuel j := by
  intro h
  rw [preLand] at h
  rcases List.mem_append.mp h with h | h
  · exact err_not_mem_preStop link url fuel j s h
  · simp at h

theorem start_not_mem_preStay (link : Link) (url : String) (fuel : Nat) :
    Event.offboardStart ∉ preStay link url fuel := by
  intro h
  rcases mem_preStay link url fuel _ h with h | h | h | h | h <;>
    simp [Event.quiet, Event.isCmd, Event.isErr] at h

theorem land_not_mem_preStay (link : Link) (url : String) (fuel : Nat) :
    Event.land ∉ preStay link url fuel := by
  intro h
  rcases mem_preStay link url fuel _ h with h | h | h | h | h <;>
    simp [Event.quiet, Event.isCmd, Event.isErr] at h

theorem land_not_mem_preHover (link : Link) (url : String) (fuel j : Nat) :
    Event.land ∉ preHover link url fuel j := by
  intro h
  rcases mem_preHover link url fuel j _ h with h | h | h | h | h | h | h | h <;>
    simp [Event.quiet, Event.isCmd, Event.isErr] at h

/-- Failures are terminal: whenever a stderr line appears in the trace the
process exits with status 1 and the stderr line is the very last event —
nothing further, in particular no further command, ever happens. -/
theorem err_terminal (link : Link) (url : String) (fuel : Nat) :
    ∀ s, Event.err s ∈ (connectedRun link url fuel).1 →
      (connectedRun link url fuel).2 = .exited 1 ∧
      ∃ p, (connectedRun link url fuel).1 = p ++ [Event.err s] := by
  intro s hs
  rcases connectedRun_cases link url fuel with
    ⟨hc1, he⟩ | ⟨hc1, hd, he⟩ | ⟨hc1, hd, hrk, he⟩ | ⟨hb, hH, he⟩ |
    ⟨hra, ha, he⟩ | ⟨hra, ha, ht, he⟩ | ⟨hra, ha, ht, hA, he⟩ |
    ⟨j, hal, hs0, he⟩ | ⟨j, hal, hs0, hst, he⟩ | ⟨j, hal, hs0, hst, hs1, he⟩ |
    ⟨j, hal, hs0, hst, hs1, hC, he⟩ |
    ⟨j, hrh, hs2, he⟩ | ⟨j, hrh, hs2, hsp, he⟩ | ⟨j, hrh, hs2, hsp, hl, he⟩ |
    ⟨j, hrh, hs2, hsp, hl, hL, he⟩ | ⟨j, hrh, hs2, hsp, hl, hL, he⟩
  · rw [he] at hs
    simp at hs
    subst hs
    exact ⟨by rw [he], [Event.connect url], by rw [he]; rfl⟩
  · rw [he] at hs
    simp at hs
    subst hs
    exact ⟨by rw [he], [Event.connect url, Event.discover], by rw [he]; rfl⟩
  · rw [he] at hs
    simp at hs
    subst hs
    exact ⟨by rw [he], [Event.connect url, Event.discover, Event.setRate 5],
      by rw [he]; rfl⟩
  · rw [he] at hs
    rcases List.mem_append.mp hs with h | h
    · simp [setupTr] at h
    · exact absurd h (err_not_mem_of_quiet (healthLoop_quiet link fuel 0) s)
  · rw [he] at hs
    rcases List.mem_append.mp hs with h | h
    · exact absurd h (err_not_mem_preArm link url fuel s)
    · simp at h
      subst h
      refine ⟨by rw [he], preArm link url fuel ++ [Event.info "Arming...", Event.arm], ?_⟩
      rw [he]
      simp [List.append_assoc]
  · rw [he] at hs
    rcases List.mem_append.mp hs with h | h
    · rw [preTakeoff] at h
      rcases List.mem_append.mp h with h | h
      · exact absurd h (err_not_mem_preArm link url fuel s)
      · simp at h
    · simp at h
      subst h
      refine ⟨by rw [he],
        preTakeoff link url fuel ++ [Event.info "Taking off...", Event.takeoff], ?_⟩
      rw [he]
      simp [List.append_assoc]
  · rw [he] at hs
    exact absurd hs (err_not_mem_preStay link url fuel s)
  · rw [he] at hs
    rcases List.mem_append.mp hs with h | h
    · exact absurd h (err_not_mem_preStay link url fuel s)
    · simp at h
      subst h
      refine ⟨by rw [he], preStay link url fuel ++ [Event.setVelocityBody stay], ?_⟩
      rw [he]
      simp [List.append_assoc]
  · rw [he] at hs
    rcases List.mem_append.mp hs with h | h
    · exact absurd h (err_not_mem_preStay link url fuel s)
    · simp at h
      subst h
      refine ⟨by rw [he], preStay link url fuel ++
        [Event.setVelocityBody stay, Event.info "Starting Offboard...",
         Event.offboardStart], ?_⟩
      rw [he]
      simp [List.append_assoc]
  · rw [he] at hs
    rcases List.mem_append.mp hs with h | h
    · exact absurd h (err_not_mem_preStay link url fuel s)
    · simp at h
      subst h
      refine ⟨by rw [he], preStay link url fuel ++
        [Event.setVelocityBody stay, Event.info "Starting Offboard...",
         Event.offboardStart, Event.setVelocityBody rotateClimbSp], ?_⟩
      rw [he]
      simp [List.append_assoc]
  · rw [he] at hs
    exact absurd hs (err_not_mem_preHover link url fuel j s)
  · rw [he] at hs
    rcases List.mem_append.mp hs with h | h
    · exact absurd h (err_not_mem_preHover link url fuel j s)
    · simp at h
      subst h
      refine ⟨by rw [he], preHover link url fuel j ++ [Event.setVelocityBody hover], ?_⟩
      rw [he]
      simp [List.append_assoc]
  · rw [he] at hs
    rcases List.mem_append.mp hs with h | h
    · exact absurd h (err_not_mem_preStop link url fuel j s)
    · simp at h
      subst h
      refine ⟨by rw [he], preStop link url fuel j ++
        [Event.info "Stopping Offboard...", Event.offboardStop], ?_⟩
      rw [he]
      simp [List.append_assoc]
  · rw [he] at hs
    rcases List.mem_append.mp hs with h | h
    · exact absurd h (err_not_mem_preLand link url fuel j s)
    · simp at h
      subst h
      refine ⟨by rw [he], preLand link url fuel j ++
        [Event.info "Landing...", Event.land], ?_⟩
      rw [he]
      simp [List.append_assoc]
  · rw [he] at hs
    exact absurd hs (err_not_mem_preDone link url fuel j s)
  · rw [he] at hs
    rcases List.mem_append.mp hs with h | h
    · exact absurd h (err_not_mem_preDone link url fuel j s)
    · simp at h

/-- Claim C2: for every command call in the sequence (set-telemetry-rate,
arm, takeoff, offboard start/stop, the three set-velocity-setpoint calls,
land), a non-success result leads to a stderr line, immediate exit with
status 1, and no further events at all (the stderr line is the last event,
so no further command is ever issued); in particular if offboard-start
fails the rotate+climb setpoint is never sent. -/
theorem C2_command_failure_fail_fast (link : Link) (argv : List String) (fuel : Nat) :
    (∀ s, Event.err s ∈ (run link argv fuel).1 →
      (run link argv fuel).2 = .exited 1 ∧
      ∃ p, (run link argv fuel).1 = p ++ [Event.err s]) ∧
    (link.setRateOk = false → Event.setRate 5 ∈ (run link argv fuel).1 →
      ∃ s, Event.err s ∈ (run link argv fuel).1) ∧
    (link.armOk = false → Event.arm ∈ (run link argv fuel).1 →
      ∃ s, Event.err s ∈ (run link argv fuel).1) ∧
    (link.takeoffOk = false → Event.takeoff ∈ (run link argv fuel).1 →
      ∃ s, Event.err s ∈ (run link argv fuel).1) ∧
    (link.offboardStartOk = false → Event.offboardStart ∈ (run link argv fuel).1 →
      ∃ s, Event.err s ∈ (run link argv fuel).1) ∧
    (link.offboardStopOk = false → Event.offboardStop ∈ (run link argv fuel).1 →
      ∃ s, Event.err s ∈ (run link argv fuel).1) ∧
    (link.landOk = false → Event.land ∈ (run link argv fuel).1 →
      ∃ s, Event.err s ∈ (run link argv fuel).1) ∧
    (link.setVel 0 = false → (∃ sp, Event.setVelocityBody sp ∈ (run link argv fuel).1) →
      ∃ s, Event.err s ∈ (run link argv fuel).1) ∧
    (link.setVel 1 = false →
      Event.setVelocityBody rotateClimbSp ∈ (run link argv fuel).1 →
      ∃ s, Event.err s ∈ (run link argv fuel).1) ∧
    (link.setVel 2 = false → 3 ≤ List.countP Event.isSetVel (run link argv fuel).1 →
      ∃ s, Event.err s ∈ (run link argv fuel).1) ∧
    (link.offboardStartOk = false →
      Event.setVelocityBody rotateClimbSp ∉ (run link argv fuel).1) := by
  rcases argv with _ | ⟨a, _ | ⟨b, _ | ⟨c0, rest⟩⟩⟩
  · refine ⟨fun s hs => ?_, fun _ hm => ?_, fun _ hm => ?_, fun _ hm => ?_, fun _ hm => ?_,
      fun _ hm => ?_, fun _ hm => ?_, fun _ hm => ?_, fun _ hm => ?_, fun _ hm => ?_,
      fun _ => ?_⟩
    · simp [run] at hs
      subst hs
      exact ⟨rfl, [], rfl⟩
    · simp [run] at hm
    · simp [run] at hm
    · simp [run] at hm
    · simp [run] at hm
    · simp [run] at hm
    · simp [run] at hm
    · obtain ⟨sp, hm⟩ := hm
      simp [run] at hm
    · simp [run] at hm
    · simp [run, List.countP_cons, Event.isSetVel] at hm
    · simp [run]
  · refine ⟨fun s hs => ?_, fun _ hm => ?_, fun _ hm => ?_, fun _ hm => ?_, fun _ hm => ?_,
      fun _ hm => ?_, fun _ hm => ?_, fun _ hm => ?_, fun _ hm => ?_, fun _ hm => ?_,
      fun _ => ?_⟩
    · simp [run] at hs
      subst hs
      exact ⟨rfl, [], rfl⟩
    · simp [run] at hm
    · simp [run] at hm
    · simp [run] at hm
    · simp [run] at hm
    · simp [run] at hm
    · simp [run] at hm
    · obtain ⟨sp, hm⟩ := hm
      simp [run] at hm
    · simp [run] at hm
    · simp [run, List.countP_cons, Event.isSetVel] at hm
    · simp [run]
  · have hcr : run link [a, b] fuel = connectedRun link b fuel := rfl
    rw [hcr]
    refine ⟨err_terminal link b fuel, ?_, ?_, ?_, ?_, ?_, ?_, ?_, ?_, ?_, ?_⟩
    · intro hflag hm
      rcases connectedRun_cases link b fuel with
      ⟨hc1, he⟩ | ⟨hc1, hd, he⟩ | ⟨hc1, hd, hrk, he⟩ | ⟨hb2, hH, he⟩ |
      ⟨hra, ha, he⟩ | ⟨hra, ha, ht, he⟩ | ⟨hra, ha, ht, hA, he⟩ |
      ⟨j, hal, hs0, he⟩ | ⟨j, hal, hs0, hst, he⟩ | ⟨j, hal, hs0, hst, hs1, he⟩ |
      ⟨j, hal, hs0, hst, hs1, hC, he⟩ |
      ⟨j, hrh, hs2, he⟩ | ⟨j, hrh, hs2, hsp, he⟩ | ⟨j, hrh, hs2, hsp, hl, he⟩ |
      ⟨j, hrh, hs2, hsp, hl, hL, he⟩ | ⟨j, hrh, hs2, hsp, hl, hL, he⟩
      · exact ⟨"Connection failed", by rw [he]; simp⟩
      · exact ⟨"Timed out waiting for system", by rw [he]; simp⟩
      · exact ⟨"Setting rate failed", by rw [he]; simp⟩
      · simp [hb2.2.2] at hflag
      · exact ⟨"Arming failed", by rw [he]; simp⟩
      · exact ⟨"Takeoff failed", by rw [he]; simp⟩
      · simp [hra.1.2.2] at hflag
      · exact ⟨"Offboard set_velocity_body (stay) failed", by rw [he]; simp⟩
      · exact ⟨"Offboard start failed", by rw [he]; simp⟩
      · exact ⟨"Offboard set_velocity_body (rotate_climb) failed", by rw [he]; simp⟩
      · simp [hal.1.1.2.2] at hflag
      · exact ⟨"Offboard set_velocity_body (hover) failed", by rw [he]; simp⟩
      · exact ⟨"Offboard stop failed", by rw [he]; simp⟩
      · exact ⟨"Land failed", by rw [he]; simp⟩
      · simp [hrh.1.1.1.2.2] at hflag
      · simp [hrh.1.1.1.2.2] at hflag
    · intro hflag hm
      rcases connectedRun_cases link b fuel with
      ⟨hc1, he⟩ | ⟨hc1, hd, he⟩ | ⟨hc1, hd, hrk, he⟩ | ⟨hb2, hH, he⟩ |
      ⟨hra, ha, he⟩ | ⟨hra, ha, ht, he⟩ | ⟨hra, ha, ht, hA, he⟩ |
      ⟨j, hal, hs0, he⟩ | ⟨j, hal, hs0, hst, he⟩ | ⟨j, hal, hs0, hst, hs1, he⟩ |
      ⟨j, hal, hs0, hst, hs1, hC, he⟩ |
      ⟨j, hrh, hs2, he⟩ | ⟨j, hrh, hs2, hsp, he⟩ | ⟨j, hrh, hs2, hsp, hl, he⟩ |
      ⟨j, hrh, hs2, hsp, hl, hL, he⟩ | ⟨j, hrh, hs2, hsp, hl, hL, he⟩
      · exact ⟨"Connection failed", by rw [he]; simp⟩
      · exact ⟨"Timed out waiting for system", by rw [he]; simp⟩
      · exact ⟨"Setting rate failed", by rw [he]; simp⟩
      · rw [he] at hm
        rcases List.mem_append.mp hm with h | h
        · simp [setupTr] at h
        · exact absurd h (not_mem_of_quiet (healthLoop_quiet link fuel 0) rfl)
      · exact ⟨"Arming failed", by rw [he]; simp⟩
      · exact ⟨"Takeoff failed", by rw [he]; simp⟩
      · simp [ha] at hflag
      · exact ⟨"Offboard set_velocity_body (stay) failed", by rw [he]; simp⟩
      · exact ⟨"Offboard start failed", by rw [he]; simp⟩
      · exact ⟨"Offboard set_velocity_body (rotate_climb) failed", by rw [he]; simp⟩
      · simp [hal.2.1] at hflag
      · exact ⟨"Offboard set_velocity_body (hover) failed", by rw [he]; simp⟩
      · exact ⟨"Offboard stop failed", by rw [he]; simp⟩
      · exact ⟨"Land failed", by rw [he]; simp⟩
      · simp [hrh.1.2.1] at hflag
      · simp [hrh.1.2.1] at hflag
    · intro hflag hm
      rcases connectedRun_cases link b fuel with
      ⟨hc1, he⟩ | ⟨hc1, hd, he⟩ | ⟨hc1, hd, hrk, he⟩ | ⟨hb2, hH, he⟩ |
      ⟨hra, ha, he⟩ | ⟨hra, ha, ht, he⟩ | ⟨hra, ha, ht, hA, he⟩ |
      ⟨j, hal, hs0, he⟩ | ⟨j, hal, hs0, hst, he⟩ | ⟨j, hal, hs0, hst, hs1, he⟩ |
      ⟨j, hal, hs0, hst, hs1, hC, he⟩ |
      ⟨j, hrh, hs2, he⟩ | ⟨j, hrh, hs2, hsp, he⟩ | ⟨j, hrh, hs2, hsp, hl, he⟩ |
      ⟨j, hrh, hs2, hsp, hl, hL, he⟩ | ⟨j, hrh, hs2, hsp, hl, hL, he⟩
      · exact ⟨"Connection failed", by rw [he]; simp⟩
      · exact ⟨"Timed out waiting for system", by rw [he]; simp⟩
      · exact ⟨"Setting rate failed", by rw [he]; simp⟩
      · rw [he] at hm
        rcases List.mem_append.mp hm with h | h
        · simp [setupTr] at h
        · exact absurd h (not_mem_of_quiet (healthLoop_quiet link fuel 0) rfl)
      · exact ⟨"Arming failed", by rw [he]; simp⟩
      · exact ⟨"Takeoff failed", by rw [he]; simp⟩
      · simp [ht] at hflag
      · exact ⟨"Offboard set_velocity_body (stay) failed", by rw [he]; simp⟩
      · exact ⟨"Offboard start failed", by rw [he]; simp⟩
      · exact ⟨"Offboard set_velocity_body (rotate_climb) failed", by rw [he]; simp⟩
      · simp [hal.2.2.1] at hflag
      · exact ⟨"Offboard set_velocity_body (hover) failed", by rw [he]; simp⟩
      · exact ⟨"Offboard stop failed", by rw [he]; simp⟩
      · exact ⟨"Land failed", by rw [he]; simp⟩
      · simp [hrh.1.2.2.1] at hflag
      · simp [hrh.1.2.2.1] at hflag
    · intro hflag hm
      rcases connectedRun_cases link b fuel with
      ⟨hc1, he⟩ | ⟨hc1, hd, he⟩ | ⟨hc1, hd, hrk, he⟩ | ⟨hb2, hH, he⟩ |
      ⟨hra, ha, he⟩ | ⟨hra, ha, ht, he⟩ | ⟨hra, ha, ht, hA, he⟩ |
      ⟨j, hal, hs0, he⟩ | ⟨j, hal, hs0, hst, he⟩ | ⟨j, hal, hs0, hst, hs1, he⟩ |
      ⟨j, hal, hs0, hst, hs1, hC, he⟩ |
      ⟨j, hrh, hs2, he⟩ | ⟨j, hrh, hs2, hsp, he⟩ | ⟨j, hrh, hs2, hsp, hl, he⟩ |
      ⟨j, hrh, hs2, hsp, hl, hL, he⟩ | ⟨j, hrh, hs2, hsp, hl, hL, he⟩
      · exact ⟨"Connection failed", by rw [he]; simp⟩
      · exact ⟨"Timed out waiting for system", by rw [he]; simp⟩
      · exact ⟨"Setting rate failed", by rw [he]; simp⟩
      · rw [he] at hm
        rcases List.mem_append.mp hm with h | h
        · simp [setupTr] at h
        · exact absurd h (not_mem_of_quiet (healthLoop_quiet link fuel 0) rfl)
      · exact ⟨"Arming failed", by rw [he]; simp⟩
      · exact ⟨"Takeoff failed", by rw [he]; simp⟩
      · rw [he] at hm
        exact absurd hm (start_not_mem_preStay link b fuel)
      · exact ⟨"Offboard set_velocity_body (stay) failed", by rw [he]; simp⟩
      · exact ⟨"Offboard start failed", by rw [he]; simp⟩
      · exact ⟨"Offboard set_velocity_body (rotate_climb) failed", by rw [he]; simp⟩
      · simp [hst] at hflag
      · exact ⟨"Offboard set_velocity_body (hover) failed", by rw [he]; simp⟩
      · exact ⟨"Offboard stop failed", by rw [he]; simp⟩
      · exact ⟨"Land failed", by rw [he]; simp⟩
      · simp [hrh.2.2.1] at hflag
      · simp [hrh.2.2.1] at hflag
    · intro hflag hm
      rcases connectedRun_cases link b fuel with
      ⟨hc1, he⟩ | ⟨hc1, hd, he⟩ | ⟨hc1, hd, hrk, he⟩ | ⟨hb2, hH, he⟩ |
      ⟨hra, ha, he⟩ | ⟨hra, ha, ht, he⟩ | ⟨hra, ha, ht, hA, he⟩ |
      ⟨j, hal, hs0, he⟩ | ⟨j, hal, hs0, hst, he⟩ | ⟨j, hal, hs0, hst, hs1, he⟩ |
      ⟨j, hal, hs0, hst, hs1, hC, he⟩ |
      ⟨j, hrh, hs2, he⟩ | ⟨j, hrh, hs2, hsp, he⟩ | ⟨j, hrh, hs2, hsp, hl, he⟩ |
      ⟨j, hrh, hs2, hsp, hl, hL, he⟩ | ⟨j, hrh, hs2, hsp, hl, hL, he⟩
      · exact ⟨"Connection failed", by rw [he]; simp⟩
      · exact ⟨"Timed out waiting for system", by rw [he]; simp⟩
      · exact ⟨"Setting rate failed", by rw [he]; simp⟩
      · rw [he] at hm
        rcases List.mem_append.mp hm with h | h
        · simp [setupTr] at h
        · exact absurd h (not_mem_of_quiet (healthLoop_quiet link fuel 0) rfl)
      · exact ⟨"Arming failed", by rw [he]; simp⟩
      · exact ⟨"Takeoff failed", by rw [he]; simp⟩
      · rw [he] at hm
        exact absurd hm (stop_not_mem_preStay link b fuel)
      · exact ⟨"Offboard set_velocity_body (stay) failed", by rw [he]; simp⟩
      · exact ⟨"Offboard start failed", by rw [he]; simp⟩
      · exact ⟨"Offboard set_velocity_body (rotate_climb) failed", by rw [he]; simp⟩
      · rw [he] at hm
        exact absurd hm (stop_not_mem_preHover link b fuel j)
      · exact ⟨"Offboard set_velocity_body (hover) failed", by rw [he]; simp⟩
      · exact ⟨"Offboard stop failed", by rw [he]; simp⟩
      · exact ⟨"Land failed", by rw [he]; simp⟩
      · simp [hsp] at hflag
      · simp [hsp] at hflag
    · intro hflag hm
      rcases connectedRun_cases link b fuel with
      ⟨hc1, he⟩ | ⟨hc1, hd, he⟩ | ⟨hc1, hd, hrk, he⟩ | ⟨hb2, hH, he⟩ |
      ⟨hra, ha, he⟩ | ⟨hra, ha, ht, he⟩ | ⟨hra, ha, ht, hA, he⟩ |
      ⟨j, hal, hs0, he⟩ | ⟨j, hal, hs0, hst, he⟩ | ⟨j, hal, hs0, hst, hs1, he⟩ |
      ⟨j, hal, hs0, hst, hs1, hC, he⟩ |
      ⟨j, hrh, hs2, he⟩ | ⟨j, hrh, hs2, hsp, he⟩ | ⟨j, hrh, hs2, hsp, hl, he⟩ |
      ⟨j, hrh, hs2, hsp, hl, hL, he⟩ | ⟨j, hrh, hs2, hsp, hl, hL, he⟩
      · exact ⟨"Connection failed", by rw [he]; simp⟩
      · exact ⟨"Timed out waiting for system", by rw [he]; simp⟩
      · exact ⟨"Setting rate failed", by rw [he]; simp⟩
      · rw [he] at hm
        rcases List.mem_append.mp hm with h | h
        · simp [setupTr] at h
        · exact absurd h (not_mem_of_quiet (healthLoop_quiet link fuel 0) rfl)
      · exact ⟨"Arming failed", by rw [he]; simp⟩
      · exact ⟨"Takeoff failed", by rw [he]; simp⟩
      · rw [he] at hm
        exact absurd hm (land_not_mem_preStay link b fuel)
      · exact ⟨"Offboard set_velocity_body (stay) failed", by rw [he]; simp⟩
      · exact ⟨"Offboard start failed", by rw [he]; simp⟩
      · exact ⟨"Offboard set_velocity_body (rotate_climb) failed", by rw [he]; simp⟩
      · rw [he] at hm
        exact absurd hm (land_not_mem_preHover link b fuel j)
      · exact ⟨"Offboard set_velocity_body (hover) failed", by rw [he]; simp⟩
      · exact ⟨"Offboard stop failed", by rw [he]; simp⟩
      · exact ⟨"Land failed", by rw [he]; simp⟩
      · simp [hl] at hflag
      · simp [hl] at hflag
    · intro hflag hm
      obtain ⟨sp, hm⟩ := hm
      rcases connectedRun_cases link b fuel with
      ⟨hc1, he⟩ | ⟨hc1, hd, he⟩ | ⟨hc1, hd, hrk, he⟩ | ⟨hb2, hH, he⟩ |
      ⟨hra, ha, he⟩ | ⟨hra, ha, ht, he⟩ | ⟨hra, ha, ht, hA, he⟩ |
      ⟨j, hal, hs0, he⟩ | ⟨j, hal, hs0, hst, he⟩ | ⟨j, hal, hs0, hst, hs1, he⟩ |
      ⟨j, hal, hs0, hst, hs1, hC, he⟩ |
      ⟨j, hrh, hs2, he⟩ | ⟨j, hrh, hs2, hsp, he⟩ | ⟨j, hrh, hs2, hsp, hl, he⟩ |
      ⟨j, hrh, hs2, hsp, hl, hL, he⟩ | ⟨j, hrh, hs2, hsp, hl, hL, he⟩
      · exact ⟨"Connection failed", by rw [he]; simp⟩
      · exact ⟨"Timed out waiting for system", by rw [he]; simp⟩
      · exact ⟨"Setting rate failed", by rw [he]; simp⟩
      · rw [he] at hm
        rcases List.mem_append.mp hm with h | h
        · simp [setupTr] at h
        · exact absurd h (not_mem_of_quiet (healthLoop_quiet link fuel 0) rfl)
      · exact ⟨"Arming failed", by rw [he]; simp⟩
      · exact ⟨"Takeoff failed", by rw [he]; simp⟩
      · rw [he] at hm
        exact absurd hm (setVel_not_mem_preStay link b fuel sp)
      · exact ⟨"Offboard set_velocity_body (stay) failed", by rw [he]; simp⟩
      · exact ⟨"Offboard start failed", by rw [he]; simp⟩
      · exact ⟨"Offboard set_velocity_body (rotate_climb) failed", by rw [he]; simp⟩
      · simp [hs0] at hflag
      · exact ⟨"Offboard set_velocity_body (hover) failed", by rw [he]; simp⟩
      · exact ⟨"Offboard stop failed", by rw [he]; simp⟩
      · exact ⟨"Land failed", by rw [he]; simp⟩
      · simp [hrh.2.1] at hflag
      · simp [hrh.2.1] at hflag
    · intro hflag hm
      rcases connectedRun_cases link b fuel with
      ⟨hc1, he⟩ | ⟨hc1, hd, he⟩ | ⟨hc1, hd, hrk, he⟩ | ⟨hb2, hH, he⟩ |
      ⟨hra, ha, he⟩ | ⟨hra, ha, ht, he⟩ | ⟨hra, ha, ht, hA, he⟩ |
      ⟨j, hal, hs0, he⟩ | ⟨j, hal, hs0, hst, he⟩ | ⟨j, hal, hs0, hst, hs1, he⟩ |
      ⟨j, hal, hs0, hst, hs1, hC, he⟩ |
      ⟨j, hrh, hs2, he⟩ | ⟨j, hrh, hs2, hsp, he⟩ | ⟨j, hrh, hs2, hsp, hl, he⟩ |
      ⟨j, hrh, hs2, hsp, hl, hL, he⟩ | ⟨j, hrh, hs2, hsp, hl, hL, he⟩
      · exact ⟨"Connection failed", by rw [he]; simp⟩
      · exact ⟨"Timed out waiting for system", by rw [he]; simp⟩
      · exact ⟨"Setting rate failed", by rw [he]; simp⟩
      · rw [he] at hm
        rcases List.mem_append.mp hm with h | h
        · simp [setupTr] at h
        · exact absurd h (not_mem_of_quiet (healthLoop_quiet link fuel 0) rfl)
      · exact ⟨"Arming failed", by rw [he]; simp⟩
      · exact ⟨"Takeoff failed", by rw [he]; simp⟩
      · rw [he] at hm
        exact absurd hm (rcSp_not_mem_preStay link b fuel)
      · exact ⟨"Offboard set_velocity_body (stay) failed", by rw [he]; simp⟩
      · exact ⟨"Offboard start failed", by rw [he]; simp⟩
      · exact ⟨"Offboard set_velocity_body (rotate_climb) failed", by rw [he]; simp⟩
      · simp [hs1] at hflag
      · exact ⟨"Offboard set_velocity_body (hover) failed", by rw [he]; simp⟩
      · exact ⟨"Offboard stop failed", by rw [he]; simp⟩
      · exact ⟨"Land failed", by rw [he]; simp⟩
      · simp [hrh.2.2.2.1] at hflag
      · simp [hrh.2.2.2.1] at hflag
    · intro hflag hcount
      rcases connectedRun_cases link b fuel with
      ⟨hc1, he⟩ | ⟨hc1, hd, he⟩ | ⟨hc1, hd, hrk, he⟩ | ⟨hb2, hH, he⟩ |
      ⟨hra, ha, he⟩ | ⟨hra, ha, ht, he⟩ | ⟨hra, ha, ht, hA, he⟩ |
      ⟨j, hal, hs0, he⟩ | ⟨j, hal, hs0, hst, he⟩ | ⟨j, hal, hs0, hst, hs1, he⟩ |
      ⟨j, hal, hs0, hst, hs1, hC, he⟩ |
      ⟨j, hrh, hs2, he⟩ | ⟨j, hrh, hs2, hsp, he⟩ | ⟨j, hrh, hs2, hsp, hl, he⟩ |
      ⟨j, hrh, hs2, hsp, hl, hL, he⟩ | ⟨j, hrh, hs2, hsp, hl, hL, he⟩
      · exact ⟨"Connection failed", by rw [he]; simp⟩
      · exact ⟨"Timed out waiting for system", by rw [he]; simp⟩
      · exact ⟨"Setting rate failed", by rw [he]; simp⟩
      · rw [he] at hcount
        simp [List.countP_append, setupTr, List.countP_cons, Event.isSetVel,
          countP_setVel_eq_zero (healthLoop_quiet link fuel 0)] at hcount
      · exact ⟨"Arming failed", by rw [he]; simp⟩
      · exact ⟨"Takeoff failed", by rw [he]; simp⟩
      · rw [he] at hcount
        simp [countP_setVel_preStay] at hcount
      · exact ⟨"Offboard set_velocity_body (stay) failed", by rw [he]; simp⟩
      · exact ⟨"Offboard start failed", by rw [he]; simp⟩
      · exact ⟨"Offboard set_velocity_body (rotate_climb) failed", by rw [he]; simp⟩
      · rw [he] at hcount
        simp [countP_setVel_preHover] at hcount
      · exact ⟨"Offboard set_velocity_body (hover) failed", by rw [he]; simp⟩
      · exact ⟨"Offboard stop failed", by rw [he]; simp⟩
      · exact ⟨"Land failed", by rw [he]; simp⟩
      · simp [hs2] at hflag
      · simp [hs2] at hflag
    · intro hflag hm
      rcases connectedRun_cases link b fuel with
      ⟨hc1, he⟩ | ⟨hc1, hd, he⟩ | ⟨hc1, hd, hrk, he⟩ | ⟨hb2, hH, he⟩ |
      ⟨hra, ha, he⟩ | ⟨hra, ha, ht, he⟩ | ⟨hra, ha, ht, hA, he⟩ |
      ⟨j, hal, hs0, he⟩ | ⟨j, hal, hs0, hst, he⟩ | ⟨j, hal, hs0, hst, hs1, he⟩ |
      ⟨j, hal, hs0, hst, hs1, hC, he⟩ |
      ⟨j, hrh, hs2, he⟩ | ⟨j, hrh, hs2, hsp, he⟩ | ⟨j, hrh, hs2, hsp, hl, he⟩ |
      ⟨j, hrh, hs2, hsp, hl, hL, he⟩ | ⟨j, hrh, hs2, hsp, hl, hL, he⟩
      · rw [he] at hm; simp at hm
      · rw [he] at hm; simp at hm
      · rw [he] at hm; simp at hm
      · rw [he] at hm
        rcases List.mem_append.mp hm with h | h
        · simp [setupTr] at h
        · exact absurd h (not_mem_of_quiet (healthLoop_quiet link fuel 0) rfl)
      · rw [he] at hm
        rcases List.mem_append.mp hm with h | h
        · exact absurd h (setVel_not_mem_preArm link b fuel rotateClimbSp)
        · simp at h
      · rw [he] at hm
        rcases List.mem_append.mp hm with h | h
        · rw [preTakeoff] at h
          rcases List.mem_append.mp h with h | h
          · exact absurd h (setVel_not_mem_preArm link b fuel rotateClimbSp)
          · simp at h
        · simp at h
      · rw [he] at hm
        exact absurd hm (rcSp_not_mem_preStay link b fuel)
      · rw [he] at hm
        rcases List.mem_append.mp hm with h | h
        · exact absurd h (rcSp_not_mem_preStay link b fuel)
        · simp at h
          exact stay_ne_rcSp h.symm
      · rw [he] at hm
        rcases List.mem_append.mp hm with h | h
        · exact absurd h (rcSp_not_mem_preStay link b fuel)
        · simp at h
          exact stay_ne_rcSp h.symm
      · simp [hst] at hflag
      · simp [hst] at hflag
      · simp [hrh.2.2.1] at hflag
      · simp [hrh.2.2.1] at hflag
      · simp [hrh.2.2.1] at hflag
      · simp [hrh.2.2.1] at hflag
      · simp [hrh.2.2.1] at hflag
  · refine ⟨fun s hs => ?_, fun _ hm => ?_, fun _ hm => ?_, fun _ hm => ?_, fun _ hm => ?_,
      fun _ hm => ?_, fun _ hm => ?_, fun _ hm => ?_, fun _ hm => ?_, fun _ hm => ?_,
      fun _ => ?_⟩
    · simp [run] at hs
      subst hs
      exact ⟨rfl, [], rfl⟩
    · simp [run] at hm
    · simp [run] at hm
    · simp [run] at hm
    · simp [run] at hm
    · simp [run] at hm
    · simp [run] at hm
    · obtain ⟨sp, hm⟩ := hm
      simp [run] at hm
    · simp [run] at hm
    · simp [run, List.countP_cons, Event.isSetVel] at hm
    · simp [run]

/-- Witness for C2 at a concrete run. -/
theorem C2_command_failure_fail_fast_witness :
    (∀ s, Event.err s ∈ (run allLink ["rotate", "udp"] 10).1 →
      (run allLink ["rotate", "udp"] 10).2 = .exited 1 ∧
      ∃ p, (run allLink ["rotate", "udp"] 10).1 = p ++ [Event.err s]) ∧
    (allLink.setRateOk = false → Event.setRate 5 ∈ (run allLink ["rotate", "udp"] 10).1 →
      ∃ s, Event.err s ∈ (run allLink ["rotate", "udp"] 10).1) ∧
    (allLink.armOk = false → Event.arm ∈ (run allLink ["rotate", "udp"] 10).1 →
      ∃ s, Event.err s ∈ (run allLink ["rotate", "udp"] 10).1) ∧
    (allLink.takeoffOk = false → Event.takeoff ∈ (run allLink ["rotate", "udp"] 10).1 →
      ∃ s, Event.err s ∈ (run allLink ["rotate", "udp"] 10).1) ∧
    (allLink.offboardStartOk = false →
      Event.offboardStart ∈ (run allLink ["rotate", "udp"] 10).1 →
      ∃ s, Event.err s ∈ (run allLink ["rotate", "udp"] 10).1) ∧
    (allLink.offboardStopOk = false →
      Event.offboardStop ∈ (run allLink ["rotate", "udp"] 10).1 →
      ∃ s, Event.err s ∈ (run allLink ["rotate", "udp"] 10).1) ∧
    (allLink.landOk = false → Event.land ∈ (run allLink ["rotate", "udp"] 10).1 →
      ∃ s, Event.err s ∈ (run allLink ["rotate", "udp"] 10).1) ∧
    (allLink.setVel 0 = false →
      (∃ sp, Event.setVelocityBody sp ∈ (run allLink ["rotate", "udp"] 10).1) →
      ∃ s, Event.err s ∈ (run allLink ["rotate", "udp"] 10).1) ∧
    (allLink.setVel 1 = false →
      Event.setVelocityBody rotateClimbSp ∈ (run allLink ["rotate", "udp"] 10).1 →
      ∃ s, Event.err s ∈ (run allLink ["rotate", "udp"] 10).1) ∧
    (allLink.setVel 2 = false →
      3 ≤ List.countP Event.isSetVel (run allLink ["rotate", "udp"] 10).1 →
      ∃ s, Event.err s ∈ (run allLink ["rotate", "udp"] 10).1) ∧
    (allLink.offboardStartOk = false →
      Event.setVelocityBody rotateClimbSp ∉ (run allLink ["rotate", "udp"] 10).1) :=
  C2_command_failure_fail_fast allLink ["rotate", "udp"] 10

end Rotate

